import Mathlib

/-!
Shallow embedding of the gravity-agents web environment
(`web-env/server.js` and the task modules under `web-env/src/tasks/`).

Numbers: counters and the seeded-generator state are natural numbers; the
physical quantities (positions, velocities) are real numbers.  The one place
where the 64-bit floating-point arithmetic of the JavaScript runtime is itself
the subject of a claim — the seeded linear-congruential recurrence in
`BaseTask.seededRandom` — is modelled bit-exactly (`flNat` below performs the
round-to-nearest-even step of IEEE-754 double rounding on integers).
-/

namespace GravityAgents

/-- Floor of the base-two logarithm, by fuel; `log2fuel 64 n` is exact for
every `n < 2 ^ 64`, which covers every value reachable by the seeded
generator (its products stay below `2 ^ 62`). -/
def log2fuel : Nat → Nat → Nat
  | 0, _ => 0
  | fuel + 1, n => if n ≤ 1 then 0 else log2fuel fuel (n / 2) + 1

/-- Rounding of a natural number to the nearest IEEE-754 double
(53 significant bits, round half to even).  For `n < 2 ^ 53` this is the
identity; larger numbers lose their low bits exactly as a JavaScript `number`
does. -/
def flNat (n : Nat) : Nat :=
  if n < 2 ^ 53 then n
  else
    let k := log2fuel 64 n
    let s := k - 52
    let q := n / 2 ^ s
    let r := n % 2 ^ s
    let h := 2 ^ (s - 1)
    let q' := if r > h then q + 1 else if r < h then q else if q % 2 = 0 then q else q + 1
    q' * 2 ^ s

namespace BaseTask

/-- The `BaseTask.seededRandom`, the seed update only:
`this.config.seed = (this.config.seed * 1103515245 + 12345) & 0x7fffffff`,
with the product and the sum each rounded to double precision as the
JavaScript runtime does, and the bit-mask `& 0x7fffffff` taking the value
modulo `2 ^ 31`. -/
def seededRandomNext (seed : Nat) : Nat :=
  flNat (flNat (seed * 1103515245) + 12345) % 2 ^ 31

/-- The recurrence as the specification states it: exact integer arithmetic,
`seed' = (seed * 1103515245 + 12345) mod 2 ^ 31`.  Kept separate so it can be
compared with the embedded `seededRandomNext`. -/
def specLcgNext (seed : Nat) : Nat :=
  (seed * 1103515245 + 12345) % 2 ^ 31

end BaseTask

/-- ASCII lower-casing of one character, as `toLowerCase` acts on the action
vocabulary (which is pure ASCII). -/
def charLower (c : Char) : Char :=
  if 65 ≤ c.toNat ∧ c.toNat ≤ 90 then Char.ofNat (c.toNat + 32) else c

/-- ASCII lower-casing of a string (`action.toLowerCase()` on the vocabulary). -/
def lowerString (s : String) : String :=
  String.mk (s.data.map charLower)

/-- An action as the `/step` endpoint receives it: a string or a number. -/
inductive Act where
  | str (s : String)
  | num (i : Int)

/-- Action normalisation from the head of every `applyAction`:
`typeof action === 'number' ? this.actions[action] : action.toLowerCase()`.
`none` plays the role of JavaScript `undefined` (an out-of-range index),
which falls through to the `default` switch branch. -/
def normalizeAction (actions : List String) : Act → Option String
  | .str s => some (lowerString s)
  | .num i => if i < 0 then none else actions.get? i.toNat

noncomputable section

open scoped Classical

structure Vec3 where
  x : ℝ
  y : ℝ
  z : ℝ

structure Body where
  pos : Vec3
  vel : Vec3

/-- An axis-aligned box, used for the traversal goal zone and the basket's
interior bounds. -/
structure Zone where
  minX : ℝ
  maxX : ℝ
  minZ : ℝ
  maxZ : ℝ
  minY : ℝ
  maxY : ℝ

/-- Membership test for the chained bound comparisons in the
`checkTermination` methods (the traversal test runs x, z, y and the basket
test x, y, z; the conjunction is the same either way). -/
def inZone (zn : Zone) (p : Vec3) : Prop :=
  zn.minX ≤ p.x ∧ p.x ≤ zn.maxX ∧ zn.minZ ≤ p.z ∧ p.z ≤ zn.maxZ ∧
    zn.minY ≤ p.y ∧ p.y ≤ zn.maxY

/-- The `Math.max(lo, Math.min(hi, v))`, the horizontal velocity clamp. -/
def clamp (lo hi v : ℝ) : ℝ := max lo (min hi v)

structure TermResult where
  done : Bool
  success : Bool
  reason : String

namespace GapCrossingTask

def actions : List String := ["forward", "back", "left", "right", "jump", "idle"]

def platformWidth : ℝ := 5.0

def platformDepth : ℝ := 5.0

def agentHeight : ℝ := 1.8

/-- The `BaseTask` sets `requiredSuccessSteps = 5` for every task. -/
def requiredSuccessSteps : Nat := 5

/-- Mutable episode-local state of the V1 traversal task (the fields of the
JavaScript object that change after construction, plus the seed the task
mutates through `this.config.seed`). -/
structure St where
  seed : Nat
  isGrounded : Bool
  canJump : Bool
  successSteps : Nat
  gapStart : ℝ
  gapEnd : ℝ
  actualGapWidth : ℝ
  goalZone : Zone

/-- The `GapCrossingTask.setup` — one seeded draw for the actual gap, the two
platforms (static, hence not part of the mutable state), the goal zone and the
agent capsule.  The post-draw scalar arithmetic is modelled in exact real
arithmetic; only the seed recurrence itself models the double rounding. -/
def setup (gapWidth gapVariance : ℝ) (seed : Nat) : St × Option Body :=
  let seed1 := BaseTask.seededRandomNext seed
  let rnd : ℝ := (seed1 : ℝ) / (2 ^ 31 - 1)
  let actualGap := gapWidth + (-gapVariance + rnd * (gapVariance - -gapVariance))
  let platformBX := platformWidth / 2 + actualGap + platformWidth / 2
  ({ seed := seed1, isGrounded := false, canJump := true, successSteps := 0,
     gapStart := platformWidth / 2, gapEnd := platformWidth / 2 + actualGap,
     actualGapWidth := actualGap,
     goalZone :=
       { minX := platformBX - platformWidth / 2 + 0.5
         maxX := platformBX + platformWidth / 2 - 0.5
         minZ := -platformDepth / 2 + 0.5
         maxZ := platformDepth / 2 - 0.5
         minY := 0, maxY := 2.0 } },
   some { pos := { x := -platformWidth / 4, y := agentHeight / 2 + 0.1, z := 0 },
          vel := { x := 0, y := 0, z := 0 } })

/-- The `GapCrossingTask.applyAction`.  Returns the updated task state and agent
body; a missing agent returns everything unchanged (`if (!agent) return`). -/
def applyAction (g : ℝ) (st : St) (agent : Option Body) (a : Act) : St × Option Body :=
  match agent with
  | none => (st, none)
  | some ag =>
    let groundedB : Bool := decide (|ag.vel.y| < 0.1 ∧ ag.pos.y < agentHeight / 2 + 0.3)
    let st1 := { st with isGrounded := groundedB }
    let astr := normalizeAction actions a
    let sv : St × Vec3 :=
      if astr = some "forward" then (st1, { ag.vel with x := 4.0 })
      else if astr = some "back" then (st1, { ag.vel with x := -4.0 })
      else if astr = some "left" then (st1, { ag.vel with z := -3.0 })
      else if astr = some "right" then (st1, { ag.vel with z := 3.0 })
      else if astr = some "jump" then
        (if groundedB && st1.canJump then
          ({ st1 with canJump := false }, { ag.vel with y := Real.sqrt (2 * g * 2.0) })
        else (st1, ag.vel))
      else (st1, { ag.vel with x := ag.vel.x * 0.9, z := ag.vel.z * 0.9 })
    let st3 := if groundedB then { sv.1 with canJump := true } else sv.1
    let v3 := { sv.2 with x := clamp (-5.0) 5.0 sv.2.x, z := clamp (-5.0) 5.0 sv.2.z }
    (st3, some { ag with vel := v3 })

/-- The `GapCrossingTask.checkTermination`.  Returns the result together with the
updated state (the JavaScript method mutates `this.successSteps`). -/
def checkTermination (st : St) (agent : Option Body) : TermResult × St :=
  match agent with
  | none => ({ done := true, success := false, reason := "agent_missing" }, st)
  | some ag =>
    if ag.pos.y < -5 then ({ done := true, success := false, reason := "fell" }, st)
    else if inZone st.goalZone ag.pos then
      (if st.successSteps + 1 ≥ requiredSuccessSteps then
        ({ done := true, success := true, reason := "reached_goal" },
         { st with successSteps := st.successSteps + 1 })
      else
        ({ done := false, success := false, reason := "ongoing" },
         { st with successSteps := st.successSteps + 1 }))
    else ({ done := false, success := false, reason := "ongoing" }, { st with successSteps := 0 })

/-- The `GapCrossingTask.getReward` — sparse reward. -/
def getReward (_done success : Bool) : ℝ := if success then 1.0 else 0.0

end GapCrossingTask

namespace GapCrossingTaskV2

def actions : List String := ["forward", "back", "left", "right", "jump", "idle"]

def platformWidth : ℝ := 4.0

def platformDepth : ℝ := 3.0

def agentHeight : ℝ := 1.8

def moveSpeed : ℝ := 3.0

def maxSpeed : ℝ := 4.0

def jumpHeight : ℝ := 1.2

def jumpCooldownMs : ℝ := 500

def airControl : ℝ := 0.3

def runUpBonus : ℝ := 1.3

def requiredSuccessSteps : Nat := 5

/-- Mutable episode-local state of the V2 traversal task.  `lastJumpTime`
holds the wall-clock milliseconds recorded by the jump branch. -/
structure St where
  seed : Nat
  isGrounded : Bool
  canJump : Bool
  lastJumpTime : ℝ
  successSteps : Nat
  gapStart : ℝ
  gapEnd : ℝ
  actualGapWidth : ℝ
  goalZone : Zone

/-- The `GapCrossingTaskV2.setup` — seeded gap draw, configurable goal platform
width and landing zone, agent spawned further back for a run-up. -/
def setup (gapWidth gapVariance goalPlatformWidth : ℝ)
    (landingZoneWidth landingZoneStart landingZoneEnd : Option ℝ)
    (seed : Nat) : St × Option Body :=
  let seed1 := BaseTask.seededRandomNext seed
  let rnd : ℝ := (seed1 : ℝ) / (2 ^ 31 - 1)
  let actualGap := gapWidth + (-gapVariance + rnd * (gapVariance - -gapVariance))
  let platformBX := platformWidth / 2 + actualGap + goalPlatformWidth / 2
  let goalMM : ℝ × ℝ :=
    match landingZoneStart, landingZoneEnd with
    | some s, some e => (s, e)
    | _, _ =>
      match landingZoneWidth with
      | some w => (platformBX - w / 2, platformBX + w / 2)
      | none => (platformBX - platformWidth / 2 + 0.8, platformBX + platformWidth / 2 - 0.8)
  ({ seed := seed1, isGrounded := false, canJump := true, lastJumpTime := 0, successSteps := 0,
     gapStart := platformWidth / 2, gapEnd := platformWidth / 2 + actualGap,
     actualGapWidth := actualGap,
     goalZone :=
       { minX := goalMM.1, maxX := goalMM.2,
         minZ := -platformDepth / 2 + 0.8, maxZ := platformDepth / 2 - 0.8,
         minY := 0, maxY := 2.0 } },
   some { pos := { x := -platformWidth / 3, y := agentHeight / 2 + 0.1, z := 0 },
          vel := { x := 0, y := 0, z := 0 } })

/-- The `GapCrossingTaskV2.applyAction`.  `now` is the value `Date.now()` returned
on this call — wall-clock time is an input of the step, not part of the
session state. -/
def applyAction (g : ℝ) (st : St) (agent : Option Body) (a : Act) (now : ℝ) :
    St × Option Body :=
  match agent with
  | none => (st, none)
  | some ag =>
    let wasGrounded := st.isGrounded
    let groundedB : Bool := decide (|ag.vel.y| < 0.1 ∧ ag.pos.y < agentHeight / 2 + 0.3)
    let canJump1 : Bool := if !wasGrounded && groundedB then true else st.canJump
    let st1 := { st with isGrounded := groundedB, canJump := canJump1 }
    let astr := normalizeAction actions a
    let sv : St × Vec3 :=
      if astr = some "forward" then
        (st1,
         if groundedB then { ag.vel with x := moveSpeed }
         else { ag.vel with x := min (ag.vel.x + moveSpeed * airControl * 0.1) maxSpeed })
      else if astr = some "back" then
        (st1,
         if groundedB then { ag.vel with x := -moveSpeed }
         else { ag.vel with x := max (ag.vel.x - moveSpeed * airControl * 0.1) (-maxSpeed) })
      else if astr = some "left" then
        (st1,
         if groundedB then { ag.vel with z := -(moveSpeed * 0.8) }
         else { ag.vel with z := ag.vel.z - moveSpeed * airControl * 0.05 })
      else if astr = some "right" then
        (st1,
         if groundedB then { ag.vel with z := moveSpeed * 0.8 }
         else { ag.vel with z := ag.vel.z + moveSpeed * airControl * 0.05 })
      else if astr = some "jump" then
        (if groundedB && canJump1 && decide (now - st.lastJumpTime > jumpCooldownMs) then
          let jumpVelocity := Real.sqrt (2 * g * jumpHeight)
          let jumpVelocity :=
            if ag.vel.x > moveSpeed * 0.5 then jumpVelocity * runUpBonus else jumpVelocity
          ({ st1 with canJump := false, lastJumpTime := now }, { ag.vel with y := jumpVelocity })
        else (st1, ag.vel))
      else
        (st1,
         if groundedB then { ag.vel with x := ag.vel.x * 0.85, z := ag.vel.z * 0.85 }
         else { ag.vel with x := ag.vel.x * 0.98, z := ag.vel.z * 0.98 })
    let v3 := { sv.2 with x := clamp (-maxSpeed) maxSpeed sv.2.x,
                          z := clamp (-maxSpeed) maxSpeed sv.2.z }
    (sv.1, some { ag with vel := v3 })

/-- The `GapCrossingTaskV2.checkTermination` — like V1 plus the `fell_side`
lateral check against the narrower platform. -/
def checkTermination (st : St) (agent : Option Body) : TermResult × St :=
  match agent with
  | none => ({ done := true, success := false, reason := "agent_missing" }, st)
  | some ag =>
    if ag.pos.y < -5 then ({ done := true, success := false, reason := "fell" }, st)
    else if |ag.pos.z| > platformDepth / 2 + 0.5 then
      ({ done := true, success := false, reason := "fell_side" }, st)
    else if inZone st.goalZone ag.pos then
      (if st.successSteps + 1 ≥ requiredSuccessSteps then
        ({ done := true, success := true, reason := "reached_goal" },
         { st with successSteps := st.successSteps + 1 })
      else
        ({ done := false, success := false, reason := "ongoing" },
         { st with successSteps := st.successSteps + 1 }))
    else ({ done := false, success := false, reason := "ongoing" }, { st with successSteps := 0 })

def getReward (_done success : Bool) : ℝ := if success then 1.0 else 0.0

/-- The observation object `GapCrossingTaskV2.getObservation` assembles.  A
missing agent is `none` (reading a field of an absent body state would fail in
the JavaScript). -/
structure Obs where
  agentPosition : Vec3
  agentVelocity : Vec3
  gapStart : ℝ
  gapEnd : ℝ
  gapWidth : ℝ
  goalZone : Zone
  gravity : ℝ
  isGrounded : Bool
  jumpHeight : ℝ
  moveSpeed : ℝ
  airControl : ℝ
  runUpBonus : ℝ
  actions : List String

def getObservation (g : ℝ) (st : St) (agent : Option Body) : Option Obs :=
  agent.map fun ag =>
    { agentPosition := ag.pos, agentVelocity := ag.vel,
      gapStart := st.gapStart, gapEnd := st.gapEnd, gapWidth := st.actualGapWidth,
      goalZone := st.goalZone, gravity := g, isGrounded := st.isGrounded,
      jumpHeight := jumpHeight, moveSpeed := moveSpeed,
      airControl := airControl, runUpBonus := runUpBonus, actions := actions }

end GapCrossingTaskV2

namespace ThrowBlockTask

def actions : List String :=
  ["forward", "back", "left", "right", "pick", "drop",
   "throw_weak", "throw_medium", "throw_strong", "idle"]

def agentHeight : ℝ := 1.8

def requiredSuccessSteps : Nat := 5

/-- The named throw-strength table of the V1 manipulation task. -/
def throwStrengths (k : String) : ℝ :=
  if k = "weak" then 5 else if k = "medium" then 10 else 15

/-- Mutable episode-local state of the V1 manipulation task. -/
structure St where
  seed : Nat
  holdingBlock : Bool
  isGrounded : Bool
  successSteps : Nat
  actualBasketDistance : ℝ
  basketHeight : ℝ
  basketBounds : Zone

def basketWidth : ℝ := 1.2

def basketDepth : ℝ := 1.2

def basketWallHeight : ℝ := 0.8

def basketWallThickness : ℝ := 0.1

def blockSize : ℝ := 0.4

/-- The `ThrowBlockTask.setup` — one seeded draw for the basket distance; the
interior bounds are derived from the wall placement and thickness.  Returns
the task state, the agent and the block. -/
def setup (basketDistance basketDistanceVariance basketHeight : ℝ) (seed : Nat) :
    St × Option Body × Option Body :=
  let seed1 := BaseTask.seededRandomNext seed
  let rnd : ℝ := (seed1 : ℝ) / (2 ^ 31 - 1)
  let actualDistance := basketDistance +
    (-basketDistanceVariance + rnd * (basketDistanceVariance - -basketDistanceVariance))
  ({ seed := seed1, holdingBlock := false, isGrounded := false, successSteps := 0,
     actualBasketDistance := actualDistance, basketHeight := basketHeight,
     basketBounds :=
       { minX := actualDistance - basketWidth / 2 + basketWallThickness
         maxX := actualDistance + basketWidth / 2 - basketWallThickness
         minY := basketHeight
         maxY := basketHeight + basketWallHeight
         minZ := -basketDepth / 2 + basketWallThickness
         maxZ := basketDepth / 2 - basketWallThickness } },
   some { pos := { x := -2, y := agentHeight / 2 + 0.1, z := 0 },
          vel := { x := 0, y := 0, z := 0 } },
   some { pos := { x := -1.5, y := blockSize / 2 + 0.1, z := 0 },
          vel := { x := 0, y := 0, z := 0 } })

/-- The `ThrowBlockTask.applyAction`.  Returns the updated task state, agent and
block; if either body is missing everything is returned unchanged
(`if (!agent || !block) return`). -/
def applyAction (g : ℝ) (st : St) (agent block : Option Body) (a : Act) :
    St × Option Body × Option Body :=
  match agent, block with
  | some ag, some bl =>
    let groundedB : Bool := decide (|ag.vel.y| < 0.1 ∧ ag.pos.y < agentHeight / 2 + 0.3)
    let st1 := { st with isGrounded := groundedB }
    let astr := normalizeAction actions a
    let mid : St × Vec3 × Body :=
      if astr = some "forward" then (st1, { ag.vel with x := 3.0 }, bl)
      else if astr = some "back" then (st1, { ag.vel with x := -3.0 }, bl)
      else if astr = some "left" then (st1, { ag.vel with z := -3.0 }, bl)
      else if astr = some "right" then (st1, { ag.vel with z := 3.0 }, bl)
      else if astr = some "pick" then
        (if !st1.holdingBlock then
          let dist := Real.sqrt ((ag.pos.x - bl.pos.x) ^ 2 + (ag.pos.z - bl.pos.z) ^ 2)
          (if dist < 1.5 then ({ st1 with holdingBlock := true }, ag.vel, bl)
           else (st1, ag.vel, bl))
        else (st1, ag.vel, bl))
      else if astr = some "drop" then
        (if st1.holdingBlock then
          ({ st1 with holdingBlock := false }, ag.vel,
           { pos := { x := ag.pos.x + 0.5, y := ag.pos.y - 0.5, z := ag.pos.z },
             vel := { x := 0, y := 0, z := 0 } })
        else (st1, ag.vel, bl))
      else if astr = some "throw_weak" ∨ astr = some "throw_medium" ∨
          astr = some "throw_strong" then
        (if st1.holdingBlock then
          let strength := throwStrengths
            (if astr = some "throw_weak" then "weak"
             else if astr = some "throw_medium" then "medium" else "strong")
          let gravityFactor := g / 9.81
          ({ st1 with holdingBlock := false }, ag.vel,
           { pos := { x := ag.pos.x + 0.8, y := ag.pos.y + 0.3, z := ag.pos.z },
             vel := { x := strength, y := strength * 0.5 * Real.sqrt gravityFactor, z := 0 } })
        else (st1, ag.vel, bl))
      else (st1, { ag.vel with x := ag.vel.x * 0.9, z := ag.vel.z * 0.9 }, bl)
    let bl2 : Body :=
      if mid.1.holdingBlock then
        { pos := { x := ag.pos.x + 0.5, y := ag.pos.y + 0.2, z := ag.pos.z },
          vel := { x := 0, y := 0, z := 0 } }
      else mid.2.2
    let v3 := { mid.2.1 with x := clamp (-4.0) 4.0 mid.2.1.x, z := clamp (-4.0) 4.0 mid.2.1.z }
    (mid.1, some { ag with vel := v3 }, some bl2)
  | _, _ => (st, agent, block)

/-- The `ThrowBlockTask.checkTermination` (textually identical in the V2 module,
which reuses this definition).  Ball-in-basket requires the block inside the
interior bounds and its speed under the rest threshold, sustained for the
required streak. -/
def checkTermination (st : St) (block agent : Option Body) : TermResult × St :=
  match block, agent with
  | some bl, some ag =>
    if bl.pos.y < -2 then ({ done := true, success := false, reason := "block_fell" }, st)
    else if ag.pos.y < -2 then ({ done := true, success := false, reason := "agent_fell" }, st)
    else
      let speed := Real.sqrt (bl.vel.x * bl.vel.x + bl.vel.y * bl.vel.y + bl.vel.z * bl.vel.z)
      if inZone st.basketBounds bl.pos ∧ speed < 0.5 then
        (if st.successSteps + 1 ≥ requiredSuccessSteps then
          ({ done := true, success := true, reason := "block_in_basket" },
           { st with successSteps := st.successSteps + 1 })
        else
          ({ done := false, success := false, reason := "ongoing" },
           { st with successSteps := st.successSteps + 1 }))
      else ({ done := false, success := false, reason := "ongoing" }, { st with successSteps := 0 })
  | _, _ => ({ done := true, success := false, reason := "missing_objects" }, st)

def getReward (_done success : Bool) : ℝ := if success then 1.0 else 0.0

end ThrowBlockTask

namespace ThrowBlockTaskV2

def actions : List String :=
  ["forward", "back", "left", "right", "pick", "drop",
   "throw_weak", "throw_medium", "throw_strong", "idle"]

def agentHeight : ℝ := 1.8

def requiredSuccessSteps : Nat := 5

/-- The recalibrated throw-strength table of the V2 manipulation task. -/
def throwStrengths (k : String) : ℝ :=
  if k = "weak" then 4.0 else if k = "medium" then 6.0 else 8.5

/-- Fixed launch angle of the V2 manipulation task: 45 degrees. -/
def throwAngle : ℝ := 45 * Real.pi / 180

def pickupRange : ℝ := 1.8

def basketWidth : ℝ := 1.5

def basketDepth : ℝ := 1.5

def basketWallHeight : ℝ := 0.6

def basketWallThickness : ℝ := 0.1

def blockSize : ℝ := 0.35

/-- Mutable episode-local state of the V2 manipulation task. -/
structure St where
  seed : Nat
  holdingBlock : Bool
  isGrounded : Bool
  successSteps : Nat
  actualBasketDistance : ℝ
  basketHeight : ℝ
  basketBounds : Zone

/-- The `ThrowBlockTaskV2.setup` — closer basket, bigger opening, agent and block
spawned next to each other. -/
def setup (basketDistance basketDistanceVariance basketHeight : ℝ) (seed : Nat) :
    St × Option Body × Option Body :=
  let seed1 := BaseTask.seededRandomNext seed
  let rnd : ℝ := (seed1 : ℝ) / (2 ^ 31 - 1)
  let actualDistance := basketDistance +
    (-basketDistanceVariance + rnd * (basketDistanceVariance - -basketDistanceVariance))
  ({ seed := seed1, holdingBlock := false, isGrounded := false, successSteps := 0,
     actualBasketDistance := actualDistance, basketHeight := basketHeight,
     basketBounds :=
       { minX := actualDistance - basketWidth / 2 + basketWallThickness
         maxX := actualDistance + basketWidth / 2 - basketWallThickness
         minY := basketHeight
         maxY := basketHeight + basketWallHeight
         minZ := -basketDepth / 2 + basketWallThickness
         maxZ := basketDepth / 2 - basketWallThickness } },
   some { pos := { x := -1.5, y := agentHeight / 2 + 0.1, z := 0 },
          vel := { x := 0, y := 0, z := 0 } },
   some { pos := { x := -0.8, y := blockSize / 2 + 0.1, z := 0 },
          vel := { x := 0, y := 0, z := 0 } })

/-- The `params.durationScale || 1.0` resolution of the V2 manipulation
task (`0` is falsy in JavaScript and also yields the default). -/
def resolveScale : Option ℝ → ℝ
  | none => 1.0
  | some v => if v = 0 then 1.0 else v

/-- The `ThrowBlockTaskV2.applyAction` with the optional per-call
`durationScale` parameter.  The throw branch positions the block at the
release offset, then aims the planar component at the basket centre and
decomposes the table magnitude along the fixed 45-degree launch angle. -/
def applyAction (_g : ℝ) (st : St) (agent block : Option Body) (a : Act)
    (durationScale : Option ℝ) : St × Option Body × Option Body :=
  match agent, block with
  | some ag, some bl =>
    let groundedB : Bool := decide (|ag.vel.y| < 0.1 ∧ ag.pos.y < agentHeight / 2 + 0.3)
    let st1 := { st with isGrounded := groundedB }
    let astr := normalizeAction actions a
    let scale := resolveScale durationScale
    let mid : St × Vec3 × Body :=
      if astr = some "forward" then (st1, { ag.vel with x := 3.0 * scale }, bl)
      else if astr = some "back" then (st1, { ag.vel with x := -3.0 * scale }, bl)
      else if astr = some "left" then (st1, { ag.vel with z := -3.0 * scale }, bl)
      else if astr = some "right" then (st1, { ag.vel with z := 3.0 * scale }, bl)
      else if astr = some "pick" then
        (if !st1.holdingBlock then
          let dist := Real.sqrt ((ag.pos.x - bl.pos.x) ^ 2 + (ag.pos.z - bl.pos.z) ^ 2)
          (if dist < pickupRange then ({ st1 with holdingBlock := true }, ag.vel, bl)
           else (st1, ag.vel, bl))
        else (st1, ag.vel, bl))
      else if astr = some "drop" then
        (if st1.holdingBlock then
          ({ st1 with holdingBlock := false }, ag.vel,
           { pos := { x := ag.pos.x + 0.5, y := ag.pos.y - 0.5, z := ag.pos.z },
             vel := { x := 0, y := 0, z := 0 } })
        else (st1, ag.vel, bl))
      else if astr = some "throw_weak" ∨ astr = some "throw_medium" ∨
          astr = some "throw_strong" then
        (if st1.holdingBlock then
          let strength := throwStrengths
            (if astr = some "throw_weak" then "weak"
             else if astr = some "throw_medium" then "medium" else "strong")
          let releaseX := ag.pos.x + 0.6
          let releaseZ := ag.pos.z
          let toBasketX := st.actualBasketDistance - releaseX
          let toBasketZ := 0 - releaseZ
          let horizontalDist := Real.sqrt (toBasketX * toBasketX + toBasketZ * toBasketZ)
          let dirX := toBasketX / horizontalDist
          let dirZ := toBasketZ / horizontalDist
          let vHorizontal := strength * Real.cos throwAngle
          let vVertical := strength * Real.sin throwAngle
          ({ st1 with holdingBlock := false }, ag.vel,
           { pos := { x := releaseX, y := ag.pos.y + 0.4, z := releaseZ },
             vel := { x := vHorizontal * dirX, y := vVertical, z := vHorizontal * dirZ } })
        else (st1, ag.vel, bl))
      else (st1, { ag.vel with x := ag.vel.x * 0.9, z := ag.vel.z * 0.9 }, bl)
    let bl2 : Body :=
      if mid.1.holdingBlock then
        { pos := { x := ag.pos.x + 0.5, y := ag.pos.y + 0.2, z := ag.pos.z },
          vel := { x := 0, y := 0, z := 0 } }
      else mid.2.2
    let v3 := { mid.2.1 with x := clamp (-4.0) 4.0 mid.2.1.x, z := clamp (-4.0) 4.0 mid.2.1.z }
    (mid.1, some { ag with vel := v3 }, some bl2)
  | _, _ => (st, agent, block)

/-- The `ThrowBlockTaskV2.checkTermination` is textually identical to the V1
method, over the V2 bounds and state. -/
def checkTermination (st : St) (block agent : Option Body) : TermResult × St :=
  match block, agent with
  | some bl, some ag =>
    if bl.pos.y < -2 then ({ done := true, success := false, reason := "block_fell" }, st)
    else if ag.pos.y < -2 then ({ done := true, success := false, reason := "agent_fell" }, st)
    else
      let speed := Real.sqrt (bl.vel.x * bl.vel.x + bl.vel.y * bl.vel.y + bl.vel.z * bl.vel.z)
      if inZone st.basketBounds bl.pos ∧ speed < 0.5 then
        (if st.successSteps + 1 ≥ requiredSuccessSteps then
          ({ done := true, success := true, reason := "block_in_basket" },
           { st with successSteps := st.successSteps + 1 })
        else
          ({ done := false, success := false, reason := "ongoing" },
           { st with successSteps := st.successSteps + 1 }))
      else ({ done := false, success := false, reason := "ongoing" }, { st with successSteps := 0 })
  | _, _ => ({ done := true, success := false, reason := "missing_objects" }, st)

def getReward (_done success : Bool) : ℝ := if success then 1.0 else 0.0

end ThrowBlockTaskV2

/-- The `info` object of a step response.  The already-done early return
carries only `reason`; the missing fields are `none`. -/
structure Info where
  step : Option Nat
  success : Option Bool
  reason : String
  totalReward : Option ℝ

/-- A step response: observation, reward, done flag and info. -/
structure StepResult (β : Type) where
  observation : β
  reward : ℝ
  done : Bool
  info : Info

/-- The interface `stepEnvironment` uses on a session's task and world,
with `α` the joint task-plus-world state and `β` the observation type.
`tick` is one loop iteration (`task.applyAction` followed by
`world.step()`); `checkTermination` returns the result together with the
updated task state (the method mutates `this.successSteps`). -/
structure TaskOps (α β : Type) where
  tick : α → Act → α
  checkTermination : α → TermResult × α
  getReward : α → Bool → Bool → ℝ
  getObservation : α → β

/-- The merged configuration of a session (`DEFAULT_CONFIG` overlaid with the
caller's fields).  Task-specific overrides stay optional: the task
constructors apply their own `??` defaults. -/
structure EnvConfig where
  task : String
  taskVersion : Option String
  gravity : ℝ
  seed : Nat
  maxSteps : Nat
  physicsTicksPerStep : Nat
  timeStep : ℝ
  gapWidth : Option ℝ
  gapVariance : Option ℝ
  goalPlatformWidth : Option ℝ
  landingZoneWidth : Option ℝ
  landingZoneStart : Option ℝ
  landingZoneEnd : Option ℝ
  basketDistance : Option ℝ
  basketDistanceVariance : Option ℝ
  basketHeight : Option ℝ

/-- A caller-supplied reset configuration: every field optional. -/
structure ResetConfig where
  task : Option String := none
  taskVersion : Option String := none
  gravity : Option ℝ := none
  seed : Option Nat := none
  maxSteps : Option Nat := none
  physicsTicksPerStep : Option Nat := none
  timeStep : Option ℝ := none
  gapWidth : Option ℝ := none
  gapVariance : Option ℝ := none
  goalPlatformWidth : Option ℝ := none
  landingZoneWidth : Option ℝ := none
  landingZoneStart : Option ℝ := none
  landingZoneEnd : Option ℝ := none
  basketDistance : Option ℝ := none
  basketDistanceVariance : Option ℝ := none
  basketHeight : Option ℝ := none

/-- The `{ ...DEFAULT_CONFIG, ...config }` — the caller's fields override the
defaults; fields absent from both stay absent. -/
def mergeConfig (rc : ResetConfig) : EnvConfig :=
  { task := rc.task.getD "gap"
    taskVersion := rc.taskVersion
    gravity := rc.gravity.getD 9.81
    seed := rc.seed.getD 42
    maxSteps := rc.maxSteps.getD 500
    physicsTicksPerStep := rc.physicsTicksPerStep.getD 10
    timeStep := rc.timeStep.getD (1 / 60)
    gapWidth := rc.gapWidth
    gapVariance := rc.gapVariance
    goalPlatformWidth := rc.goalPlatformWidth
    landingZoneWidth := rc.landingZoneWidth
    landingZoneStart := rc.landingZoneStart
    landingZoneEnd := rc.landingZoneEnd
    basketDistance := rc.basketDistance
    basketDistanceVariance := rc.basketDistanceVariance
    basketHeight := rc.basketHeight }

/-- One entry of the `environments` map:
`{ world, task, config, stepCount, done, totalReward }` with world and task
bundled into `state`. -/
structure EnvState (α : Type) where
  state : α
  config : EnvConfig
  stepCount : Nat
  done : Bool
  totalReward : ℝ

/-- The physics loop of `stepEnvironment`: `physicsTicksPerStep` iterations of
apply-action-then-step. -/
def stepTicks {α β : Type} (ops : TaskOps α β) (env : EnvState α) (a : Act) : α :=
  (fun s => ops.tick s a)^[env.config.physicsTicksPerStep] env.state

/-- The `stepEnvironment` from `server.js`: the already-done early return,
otherwise the tick loop, the step-count increment, termination check, reward,
done-marking against the budget, reward accumulation and response assembly. -/
def stepEnvironment {α β : Type} (ops : TaskOps α β) (env : EnvState α) (a : Act) :
    EnvState α × StepResult β :=
  if env.done then
    (env,
     { observation := ops.getObservation env.state, reward := 0, done := true,
       info := { step := none, success := none, reason := "already_done", totalReward := none } })
  else
    let s1 := stepTicks ops env a
    let n := env.stepCount + 1
    let tr := ops.checkTermination s1
    let r := ops.getReward tr.2 tr.1.done tr.1.success
    let dn := tr.1.done || decide (n ≥ env.config.maxSteps)
    let total := env.totalReward + r
    ({ env with state := tr.2, stepCount := n, done := dn, totalReward := total },
     { observation := ops.getObservation tr.2, reward := r, done := dn,
       info := { step := some n, success := some tr.1.success,
                 reason := if dn && !tr.1.done then "timeout" else tr.1.reason,
                 totalReward := some total } })

/-- The step responses produced by driving one session through a list of
actions. -/
def runSession {α β : Type} (ops : TaskOps α β) :
    EnvState α → List Act → List (StepResult β)
  | _, [] => []
  | env, a :: rest =>
    let er := stepEnvironment ops env a
    er.2 :: runSession ops er.1 rest

/-- First-match lookup in the session map (`environments.get`). -/
def lookupSession {σ : Type} : List (String × σ) → String → Option σ
  | [], _ => none
  | e :: rest, sid => if e.1 = sid then some e.2 else lookupSession rest sid

/-- Key-unique update of the session map (`environments.set`). -/
def setSession {σ : Type} : List (String × σ) → String → σ → List (String × σ)
  | [], sid, v => [(sid, v)]
  | e :: rest, sid, v =>
    if e.1 = sid then (e.1, v) :: rest else e :: setSession rest sid v

/-- The `/step` handler body: session-not-found is the thrown error; a found
session is stepped and stored back. -/
def stepSession {α β : Type} (ops : TaskOps α β) (envs : List (String × EnvState α))
    (sid : String) (a : Act) :
    Except String (List (String × EnvState α) × StepResult β) :=
  match lookupSession envs sid with
  | none => .error ("No environment for session: " ++ sid)
  | some env =>
    let er := stepEnvironment ops env a
    .ok (setSession envs sid er.1, er.2)

/-- The keys of the `TASKS` registry in `server.js`. -/
def TASK_KEYS : List String := ["gap", "throw", "gap_v2", "throw_v2"]

/-- Task-name resolution in `createEnvironment`: the `_v2` suffix is appended
when `taskVersion === 'v2'`. -/
def resolveTaskName (cfg : EnvConfig) : String :=
  if cfg.taskVersion = some "v2" then cfg.task ++ "_v2" else cfg.task

/-- The own property names of `Object.prototype` in the JavaScript runtime.
`TASKS` is a plain object literal, so the property lookup `TASKS[taskName]`
walks the prototype chain: for these names (and only these, besides the
registry's own keys) it yields an inherited value that is truthy, and the
`if (!TaskClass)` guard does not fire. -/
def OBJECT_PROTO_KEYS : List String :=
  ["constructor", "hasOwnProperty", "isPrototypeOf", "propertyIsEnumerable",
   "toLocaleString", "toString", "valueOf", "__proto__",
   "__defineGetter__", "__defineSetter__", "__lookupGetter__", "__lookupSetter__"]

/-- The `createEnvironment` from `server.js`, generic over how a registered
task is built into a session (`build`): merge the configuration, resolve the
task name, and dispatch on the property lookup `TASKS[taskName]`:
* a registry key builds and stores the fresh session;
* any name with no (own or inherited) property throws the unknown-task
  configuration error before `environments.set`, leaving the map unchanged;
* the inherited name `constructor` looks up the `Object` constructor, which
  is truthy, so the guard passes; `new Object(world, mergedConfig)` returns
  the physics world, the session object around it is stored by
  `environments.set` — replacing any prior session — and only the final
  `task.getObservation()` then throws a TypeError (`broken` builds that
  stored session; the message models the thrown TypeError);
* the other inherited `Object.prototype` names are truthy but not
  constructors, so `new TaskClass(...)` throws a TypeError before
  `environments.set`, leaving the map unchanged. -/
def createEnvironment {σ : Type} (build : String → EnvConfig → σ)
    (broken : EnvConfig → σ) (envs : List (String × σ)) (sid : String) (rc : ResetConfig) :
    List (String × σ) × Except String Unit :=
  let cfg := mergeConfig rc
  let name := resolveTaskName cfg
  if name ∈ TASK_KEYS then (setSession envs sid (build name cfg), .ok ())
  else if name = "constructor" then
    (setSession envs sid (broken cfg), .error "task.getObservation is not a function")
  else if name ∈ OBJECT_PROTO_KEYS then
    (envs, .error "TaskClass is not a constructor")
  else
    (envs, .error ("Unknown task: " ++ name ++ " (available: gap, throw, gap_v2, throw_v2)"))

/-- The `/reset` handler around `createEnvironment`: a thrown error becomes a
`success:false` response, with whatever session map the call left behind. -/
def resetHandler {σ : Type} (build : String → EnvConfig → σ) (broken : EnvConfig → σ)
    (envs : List (String × σ)) (sid : String) (rc : ResetConfig) :
    List (String × σ) × Bool × String :=
  let r := createEnvironment build broken envs sid rc
  match r.2 with
  | .ok _ => (r.1, true, "")
  | .error e => (r.1, false, e)

namespace GapCrossingTaskV2

/-- A `gap_v2` session's joint state: task object, the agent body in the
world, and the running count of `Date.now()` calls (used to index the
wall-clock oracle). -/
structure Full where
  task : St
  agent : Option Body
  tickIdx : Nat

/-- The `TaskOps` instance of a `gap_v2` session.  `phys` is the (assumed
deterministic) physics backend advancing one fixed timestep; `oracle k` is the
value `Date.now()` returns on its `k`-th call in this session. -/
def ops (phys : Body → Body) (oracle : Nat → ℝ) (g : ℝ) : TaskOps Full (Option Obs) :=
  { tick := fun s a =>
      let r := applyAction g s.task s.agent a (oracle s.tickIdx)
      { task := r.1, agent := r.2.map phys, tickIdx := s.tickIdx + 1 }
    checkTermination := fun s =>
      let r := checkTermination s.task s.agent
      (r.1, { s with task := r.2 })
    getReward := fun _ dn success => getReward dn success
    getObservation := fun s => getObservation g s.task s.agent }

/-- A fresh `gap_v2` session built from a merged configuration (the
constructor's `??` defaults applied, then `setup`). -/
def init (cfg : EnvConfig) : EnvState Full :=
  let gw := cfg.gapWidth.getD 4.6
  let gv := cfg.gapVariance.getD 0.1
  let gpw := cfg.goalPlatformWidth.getD platformWidth
  let r := setup gw gv gpw cfg.landingZoneWidth cfg.landingZoneStart cfg.landingZoneEnd cfg.seed
  { state := { task := r.1, agent := r.2, tickIdx := 0 },
    config := cfg, stepCount := 0, done := false, totalReward := 0 }

end GapCrossingTaskV2

/-- The seeded jitter applied at setup:
`base + randomInRange(-variance, variance)` after one draw of the generator,
written out as `min + r * (max - min)`.  This is the pure function of the
configured seed that both `setup` methods compute once. -/
def jitteredValue (base variance : ℝ) (seed : Nat) : ℝ :=
  base + (-variance + ((BaseTask.seededRandomNext seed : ℝ) / (2 ^ 31 - 1)) *
    (variance - -variance))

/-- An action that is neither a recognised action string after case
normalisation nor a numeric index into the task's action list. -/
def unrecognized (actions : List String) : Act → Prop
  | .str s => lowerString s ∉ actions
  | .num i => i < 0 ∨ actions.length ≤ i.toNat

/-- The strength-table key selected by a throw action string
(`actionStr.replace('throw_', '')` on the three throw actions). -/
def throwKey (astr : String) : String :=
  if astr = "throw_weak" then "weak"
  else if astr = "throw_medium" then "medium" else "strong"

namespace GapCrossingTask

/-- The `successSteps` evolution of one episode: state after `k` calls of
`checkTermination`, the `k`-th call receiving the agent body `inp k`. -/
def checkRun (st0 : St) (inp : Nat → Option Body) : Nat → St
  | 0 => st0
  | k + 1 => (checkTermination (checkRun st0 inp k) (inp k)).2

/-- The result of the `k`-th `checkTermination` call of an episode. -/
def resAt (st0 : St) (inp : Nat → Option Body) (k : Nat) : TermResult :=
  (checkTermination (checkRun st0 inp k) (inp k)).1

/-- The success predicate of the traversal task: the agent is present and its
body centre lies inside the goal zone. -/
def compliantAt (zn : Zone) (b : Option Body) : Prop :=
  ∃ ag, b = some ag ∧ inZone zn ag.pos

end GapCrossingTask

namespace ThrowBlockTask

/-- The `successSteps` evolution of one episode of the manipulation task;
the `k`-th call of `checkTermination` receives `(inp k).1` as the block and
`(inp k).2` as the agent. -/
def checkRun (st0 : St) (inp : Nat → Option Body × Option Body) : Nat → St
  | 0 => st0
  | k + 1 => (checkTermination (checkRun st0 inp k) (inp k).1 (inp k).2).2

/-- The result of the `k`-th `checkTermination` call of an episode. -/
def resAt (st0 : St) (inp : Nat → Option Body × Option Body) (k : Nat) : TermResult :=
  (checkTermination (checkRun st0 inp k) (inp k).1 (inp k).2).1

/-- The success predicate of the manipulation task: the block is inside the
basket's interior bounds and its speed is below the rest threshold. -/
def compliantAt (zn : Zone) (ba : Option Body × Option Body) : Prop :=
  ∃ bl ag, ba = (some bl, some ag) ∧ inZone zn bl.pos ∧
    Real.sqrt (bl.vel.x * bl.vel.x + bl.vel.y * bl.vel.y + bl.vel.z * bl.vel.z) < 0.5

end ThrowBlockTask

/-- A trivial task interface over a unit state, used to exercise the generic
`stepEnvironment` at concrete inputs. -/
def unitOps : TaskOps Unit Unit :=
  { tick := fun _ _ => ()
    checkTermination := fun _ => ({ done := false, success := false, reason := "ongoing" }, ())
    getReward := fun _ _ success => if success then 1.0 else 0.0
    getObservation := fun _ => () }

/-- A session that has already terminated (`done = true`). -/
def envDoneW : EnvState Unit :=
  { state := (), config := mergeConfig {}, stepCount := 7, done := true, totalReward := 3 }

/-- A live session one step away from its budget (`maxSteps = 1`). -/
def envLiveW : EnvState Unit :=
  { state := (), config := mergeConfig { maxSteps := some 1 }, stepCount := 0, done := false,
    totalReward := 0 }

/-- The broken session a `task: "constructor"` reset stores (its `task` field
is the physics world itself); distinguishable from `envDoneW` by its step
counter and done flag. -/
def envBrokenW : EnvState Unit :=
  { state := (), config := mergeConfig { task := some "constructor" }, stepCount := 0,
    done := false, totalReward := 0 }

/-- The merged configuration of the two-session determinism experiment:
`gap_v2`, defaults otherwise, one physics tick per step. -/
def cfgC1 : EnvConfig :=
  mergeConfig { taskVersion := some "v2", physicsTicksPerStep := some 1 }

/-- A wall-clock oracle whose first `Date.now()` call returns 600 ms. -/
noncomputable def oracleA : Nat → ℝ := fun _ => 600

/-- A wall-clock oracle whose first `Date.now()` call returns 100 ms. -/
noncomputable def oracleB : Nat → ℝ := fun _ => 100

/-- A V2 traversal state: grounded flag set, jump available, no previous
jump. -/
noncomputable def stC6 : GapCrossingTaskV2.St :=
  { seed := 42, isGrounded := true, canJump := true, lastJumpTime := 0, successSteps := 0,
    gapStart := 2.0, gapEnd := 6.5, actualGapWidth := 4.5,
    goalZone := { minX := 7, maxX := 9, minZ := -0.7, maxZ := 0.7, minY := 0, maxY := 2 } }

/-- An agent at rest height moving sideways at 4 m/s (horizontal speed 4,
forward component 0). -/
noncomputable def agC6 : Body :=
  { pos := { x := 0, y := 1.0, z := 0 }, vel := { x := 0, y := 0, z := 4 } }

/-- An agent at rest height with a 2 m/s run-up along x. -/
noncomputable def agC6run : Body :=
  { pos := { x := 0, y := 1.0, z := 0 }, vel := { x := 2, y := 0, z := 0 } }

/-- A V1 manipulation state holding the block, basket 6 m away. -/
noncomputable def stC7 : ThrowBlockTask.St :=
  { seed := 42, holdingBlock := true, isGrounded := true, successSteps := 0,
    actualBasketDistance := 6, basketHeight := 1.5,
    basketBounds := { minX := 5.5, maxX := 6.5, minZ := -0.5, maxZ := 0.5,
                      minY := 1.5, maxY := 2.3 } }

/-- An agent standing at `z = 2`, so the basket centre is not straight
ahead. -/
noncomputable def agC7 : Body :=
  { pos := { x := 0, y := 1.0, z := 2 }, vel := { x := 0, y := 0, z := 0 } }

/-- The held block before the throw (its fields are irrelevant: the throw
branch overwrites position and velocity). -/
noncomputable def blC7 : Body :=
  { pos := { x := 0.5, y := 1.2, z := 2 }, vel := { x := 0, y := 0, z := 0 } }

/-- A fresh V2 manipulation state not holding the block (as spawned, with
basket distance 4). -/
noncomputable def stC8 : ThrowBlockTaskV2.St :=
  { seed := 42, holdingBlock := false, isGrounded := false, successSteps := 0,
    actualBasketDistance := 4, basketHeight := 1.0,
    basketBounds := { minX := 3.35, maxX := 4.65, minZ := -0.65, maxZ := 0.65,
                      minY := 1.0, maxY := 1.6 } }

/-- The V2 agent at its spawn position. -/
noncomputable def agC8 : Body :=
  { pos := { x := -1.5, y := 1.0, z := 0 }, vel := { x := 0, y := 0, z := 0 } }

/-- The V2 block at its spawn position, 0.7 m from the agent in the plane. -/
noncomputable def blC8 : Body :=
  { pos := { x := -0.8, y := 0.275, z := 0 }, vel := { x := 0, y := 0, z := 0 } }

/-- An agent 3.3 m from the block in the plane — outside the 1.8 m pickup
radius. -/
noncomputable def agC8far : Body :=
  { pos := { x := 2.5, y := 1.0, z := 0 }, vel := { x := 0, y := 0, z := 0 } }

/-- The fresh V2 manipulation state after a successful pick (holding the
block). -/
noncomputable def stC8hold : ThrowBlockTaskV2.St := { stC8 with holdingBlock := true }

/-- A V1 traversal state with a four-step success streak (one short of the
required five). -/
noncomputable def stC4 : GapCrossingTask.St :=
  { seed := 42, isGrounded := true, canJump := true, successSteps := 4,
    gapStart := 2.5, gapEnd := 5.5, actualGapWidth := 3,
    goalZone := { minX := 6, maxX := 9, minZ := -2, maxZ := 2, minY := 0, maxY := 2 } }

/-- An agent that has fallen below the floor threshold (`y = -6`). -/
noncomputable def agC4 : Body :=
  { pos := { x := 7, y := -6, z := 0 }, vel := { x := 0, y := -5, z := 0 } }

/-- An agent standing on the start platform, outside the goal zone. -/
noncomputable def agC4out : Body :=
  { pos := { x := 0, y := 1, z := 0 }, vel := { x := 0, y := 0, z := 0 } }

end

/-! Theorems.  Helper lemmas first, then one theorem per claim (with a
closed witness for every claim theorem that carries a hypothesis, and a
closed counterexample where the claim as stated fails on the embedded
code). -/

/-- Storing back the value a key already maps to leaves the session map
unchanged. -/
theorem lookupSession_eq_setSession {σ : Type} :
    ∀ (envs : List (String × σ)) (sid : String) (v : σ),
      lookupSession envs sid = some v → setSession envs sid v = envs := by
  intro envs
  induction envs with
  | nil => intro sid v h; simp [lookupSession] at h
  | cons e rest ih =>
    obtain ⟨k, w⟩ := e
    intro sid v h
    by_cases he : k = sid
    · subst he
      simp [lookupSession] at h
      simp [setSession, ← h]
    · simp only [lookupSession, if_neg he] at h
      simp [setSession, he, ih sid v h]

/-- Claim C2: a step on a session whose done flag is already true is an
idempotent no-op, not an error — it returns the observation of the terminal
state, zero reward, done = true and the `already_done` marker, and leaves the
session map (hence world state, step counter and cumulative reward)
unchanged. -/
theorem c2_done_noop {α β : Type} (ops : TaskOps α β) (envs : List (String × EnvState α))
    (sid : String) (env : EnvState α) (a : Act)
    (hl : lookupSession envs sid = some env) (hd : env.done = true) :
    stepSession ops envs sid a =
      .ok (envs,
        { observation := ops.getObservation env.state, reward := 0, done := true,
          info := { step := none, success := none, reason := "already_done",
                    totalReward := none } }) := by
  have hstep : stepEnvironment ops env a =
      (env,
        { observation := ops.getObservation env.state, reward := 0, done := true,
          info := { step := none, success := none, reason := "already_done",
                    totalReward := none } }) := by
    unfold stepEnvironment
    rw [if_pos hd]
  simp only [stepSession, hl, hstep, lookupSession_eq_setSession envs sid env hl]

/-- Witness for C2 at a concrete finished session. -/
theorem c2_witness :
    lookupSession [("default", envDoneW)] "default" = some envDoneW ∧
    envDoneW.done = true ∧
    stepSession unitOps [("default", envDoneW)] "default" (Act.str "forward") =
      .ok ([("default", envDoneW)],
        { observation := (), reward := 0, done := true,
          info := { step := none, success := none, reason := "already_done",
                    totalReward := none } }) :=
  ⟨by simp [lookupSession], rfl,
    c2_done_noop unitOps [("default", envDoneW)] "default" envDoneW (Act.str "forward")
      (by simp [lookupSession]) rfl⟩

/-- Claim C5: on a live session, the step marks the session done exactly when
the task reports termination or the incremented step counter reaches the
budget; a pure budget exhaustion is reported as `timeout` while a
task-reported termination keeps the task's reason; and the returned reward is
added to the cumulative reward. -/
theorem c5_done_budget {α β : Type} (ops : TaskOps α β) (env : EnvState α) (a : Act)
    (h : env.done = false) :
    ((stepEnvironment ops env a).1.done = true ↔
      ((ops.checkTermination (stepTicks ops env a)).1.done = true ∨
        env.config.maxSteps ≤ env.stepCount + 1))
    ∧ (stepEnvironment ops env a).1.stepCount = env.stepCount + 1
    ∧ ((ops.checkTermination (stepTicks ops env a)).1.done = false →
        env.config.maxSteps ≤ env.stepCount + 1 →
        (stepEnvironment ops env a).2.info.reason = "timeout")
    ∧ ((ops.checkTermination (stepTicks ops env a)).1.done = true →
        (stepEnvironment ops env a).2.info.reason =
          (ops.checkTermination (stepTicks ops env a)).1.reason)
    ∧ (stepEnvironment ops env a).1.totalReward =
        env.totalReward + (stepEnvironment ops env a).2.reward
    ∧ (stepEnvironment ops env a).2.reward =
        ops.getReward (ops.checkTermination (stepTicks ops env a)).2
          (ops.checkTermination (stepTicks ops env a)).1.done
          (ops.checkTermination (stepTicks ops env a)).1.success := by
  unfold stepEnvironment
  rw [if_neg (by simp [h])]
  refine ⟨by simp [Bool.or_eq_true, decide_eq_true_eq], rfl, ?_, ?_, rfl, rfl⟩
  · intro h1 h2
    simp [h1, h2, decide_eq_true_eq]
  · intro h1
    simp [h1]

/-- Witness for C5: a session with budget 1 that the task does not terminate
is marked done with reason `timeout`, and the reward is accumulated. -/
theorem c5_witness :
    envLiveW.done = false ∧
    (stepEnvironment unitOps envLiveW (Act.str "idle")).2.info.reason = "timeout" ∧
    (stepEnvironment unitOps envLiveW (Act.str "idle")).1.totalReward =
      envLiveW.totalReward + (stepEnvironment unitOps envLiveW (Act.str "idle")).2.reward :=
  ⟨rfl,
    (c5_done_budget unitOps envLiveW (Act.str "idle") rfl).2.2.1 rfl
      (by norm_num [envLiveW, mergeConfig]),
    (c5_done_budget unitOps envLiveW (Act.str "idle") rfl).2.2.2.2.1⟩

/-- Looking a key up right after storing it finds the stored value. -/
theorem lookupSession_setSession {σ : Type} :
    ∀ (envs : List (String × σ)) (sid : String) (v : σ),
      lookupSession (setSession envs sid v) sid = some v := by
  intro envs
  induction envs with
  | nil => intro sid v; simp [setSession, lookupSession]
  | cons e rest ih =>
    intro sid v
    by_cases he : e.1 = sid
    · simp [setSession, he, lookupSession]
    · simp [setSession, he, lookupSession, ih sid v]

/-- No inherited `Object.prototype` property name is a registry key. -/
theorem proto_keys_not_task_keys : ∀ x ∈ OBJECT_PROTO_KEYS, x ∉ TASK_KEYS := by
  decide

/-- Claim C9 (amended): a reset whose merged configuration resolves to a task
name with no own or inherited property on the registry object fails with the
unknown-task configuration error before any session is created — the session
map is unchanged and a prior session under the same identifier is still
found.  The truthiness check is however fooled by names inherited from
`Object.prototype`: for `constructor` the construction returns the physics
world, the broken session around it is stored — replacing any prior session
under the identifier — and the call then fails with a TypeError; for the
other inherited names the construction itself throws a TypeError before the
map is touched, so the map is unchanged but the error is not the
configuration error. -/
theorem c9_unknown_task :
    (∀ {σ : Type} (build : String → EnvConfig → σ) (broken : EnvConfig → σ)
      (envs : List (String × σ)) (sid : String) (rc : ResetConfig),
      resolveTaskName (mergeConfig rc) ∉ TASK_KEYS →
      resolveTaskName (mergeConfig rc) ∉ OBJECT_PROTO_KEYS →
      createEnvironment build broken envs sid rc =
        (envs, .error ("Unknown task: " ++ resolveTaskName (mergeConfig rc) ++
          " (available: gap, throw, gap_v2, throw_v2)")) ∧
      resetHandler build broken envs sid rc =
        (envs, false, "Unknown task: " ++ resolveTaskName (mergeConfig rc) ++
          " (available: gap, throw, gap_v2, throw_v2)") ∧
      lookupSession (resetHandler build broken envs sid rc).1 sid = lookupSession envs sid)
    ∧ (∀ {σ : Type} (build : String → EnvConfig → σ) (broken : EnvConfig → σ)
      (envs : List (String × σ)) (sid : String) (rc : ResetConfig),
      resolveTaskName (mergeConfig rc) = "constructor" →
      createEnvironment build broken envs sid rc =
        (setSession envs sid (broken (mergeConfig rc)),
         .error "task.getObservation is not a function") ∧
      (resetHandler build broken envs sid rc).2.1 = false ∧
      lookupSession (resetHandler build broken envs sid rc).1 sid =
        some (broken (mergeConfig rc)))
    ∧ (∀ {σ : Type} (build : String → EnvConfig → σ) (broken : EnvConfig → σ)
      (envs : List (String × σ)) (sid : String) (rc : ResetConfig),
      resolveTaskName (mergeConfig rc) ∈ OBJECT_PROTO_KEYS →
      resolveTaskName (mergeConfig rc) ≠ "constructor" →
      createEnvironment build broken envs sid rc =
        (envs, .error "TaskClass is not a constructor") ∧
      lookupSession (resetHandler build broken envs sid rc).1 sid = lookupSession envs sid) := by
  refine ⟨?_, ?_, ?_⟩
  · intro σ build broken envs sid rc h1 h2
    have hne : resolveTaskName (mergeConfig rc) ≠ "constructor" := by
      intro e
      exact h2 (by rw [e]; decide)
    have e1 : createEnvironment build broken envs sid rc =
        (envs, .error ("Unknown task: " ++ resolveTaskName (mergeConfig rc) ++
          " (available: gap, throw, gap_v2, throw_v2)")) := by
      simp only [createEnvironment]
      rw [if_neg h1, if_neg hne, if_neg h2]
    refine ⟨e1, ?_, ?_⟩
    · simp only [resetHandler, e1]
    · simp only [resetHandler, e1]
  · intro σ build broken envs sid rc heq
    have hnt : resolveTaskName (mergeConfig rc) ∉ TASK_KEYS := by
      rw [heq]; decide
    have e1 : createEnvironment build broken envs sid rc =
        (setSession envs sid (broken (mergeConfig rc)),
         .error "task.getObservation is not a function") := by
      simp only [createEnvironment]
      rw [if_neg hnt, if_pos heq]
    refine ⟨e1, ?_, ?_⟩
    · simp only [resetHandler, e1]
    · simp only [resetHandler, e1]
      exact lookupSession_setSession envs sid (broken (mergeConfig rc))
  · intro σ build broken envs sid rc hp hne
    have hnt : resolveTaskName (mergeConfig rc) ∉ TASK_KEYS := fun ht =>
      proto_keys_not_task_keys _ hp ht
    have e1 : createEnvironment build broken envs sid rc =
        (envs, .error "TaskClass is not a constructor") := by
      simp only [createEnvironment]
      rw [if_neg hnt, if_neg hne, if_pos hp]
    exact ⟨e1, by simp only [resetHandler, e1]⟩

/-- Counterexample to C9 as stated: resetting with `task: "constructor"` — a
task name not in the registry — fails, but the session map is not left
unchanged: the inherited `Object.prototype.constructor` passes the truthiness
check, the broken session is stored by `environments.set`, and the prior
session under the identifier is replaced before the TypeError is thrown. -/
theorem c9_counterexample :
    resolveTaskName (mergeConfig { task := some "constructor" }) ∉ TASK_KEYS ∧
    (resetHandler (fun _ _ => envDoneW) (fun _ => envBrokenW) [("default", envDoneW)]
        "default" { task := some "constructor" }).2.1 = false ∧
    lookupSession (resetHandler (fun _ _ => envDoneW) (fun _ => envBrokenW)
        [("default", envDoneW)] "default" { task := some "constructor" }).1 "default" =
      some envBrokenW ∧
    envBrokenW ≠ envDoneW := by
  refine ⟨?_, ?_, ?_, ?_⟩
  · simp [resolveTaskName, mergeConfig, TASK_KEYS]
  · simp [resetHandler, createEnvironment, resolveTaskName, mergeConfig, TASK_KEYS,
      OBJECT_PROTO_KEYS]
  · simp [resetHandler, createEnvironment, resolveTaskName, mergeConfig, TASK_KEYS,
      OBJECT_PROTO_KEYS, setSession, lookupSession]
  · intro h
    have hd := congrArg (fun e : EnvState Unit => e.done) h
    simp [envBrokenW, envDoneW] at hd

/-- Witness for C9: the name `flying` (no property at all) fails with the
configuration error and leaves the prior session live; the inherited name
`toString` fails with a TypeError, also before the map is touched. -/
theorem c9_witness :
    resolveTaskName (mergeConfig { task := some "flying" }) ∉ TASK_KEYS ∧
    resolveTaskName (mergeConfig { task := some "flying" }) ∉ OBJECT_PROTO_KEYS ∧
    resetHandler (fun _ _ => envDoneW) (fun _ => envBrokenW) [("default", envDoneW)]
        "default" { task := some "flying" } =
      ([("default", envDoneW)], false,
        "Unknown task: " ++ "flying" ++ " (available: gap, throw, gap_v2, throw_v2)") ∧
    lookupSession (resetHandler (fun _ _ => envDoneW) (fun _ => envBrokenW)
        [("default", envDoneW)] "default" { task := some "flying" }).1 "default" =
      some envDoneW ∧
    resolveTaskName (mergeConfig { task := some "toString" }) ∈ OBJECT_PROTO_KEYS ∧
    createEnvironment (fun _ _ => envDoneW) (fun _ => envBrokenW) [("default", envDoneW)]
        "default" { task := some "toString" } =
      ([("default", envDoneW)], .error "TaskClass is not a constructor") := by
  have hf1 : resolveTaskName (mergeConfig { task := some "flying" }) ∉ TASK_KEYS := by
    simp [resolveTaskName, mergeConfig, TASK_KEYS]
  have hf2 : resolveTaskName (mergeConfig { task := some "flying" }) ∉ OBJECT_PROTO_KEYS := by
    simp [resolveTaskName, mergeConfig, OBJECT_PROTO_KEYS]
  have hts : resolveTaskName (mergeConfig { task := some "toString" }) ∈ OBJECT_PROTO_KEYS := by
    simp [resolveTaskName, mergeConfig, OBJECT_PROTO_KEYS]
  have htsne : resolveTaskName (mergeConfig { task := some "toString" }) ≠ "constructor" := by
    simp [resolveTaskName, mergeConfig]
  have h1 := c9_unknown_task.1 (fun _ _ => envDoneW) (fun _ => envBrokenW)
    [("default", envDoneW)] "default" { task := some "flying" } hf1 hf2
  have h3 := c9_unknown_task.2.2 (fun _ _ => envDoneW) (fun _ => envBrokenW)
    [("default", envDoneW)] "default" { task := some "toString" } hts htsne
  refine ⟨hf1, hf2, ?_, ?_, hts, h3.1⟩
  · rw [h1.2.1]
    simp [resolveTaskName, mergeConfig]
  · rw [h1.2.2]
    simp [lookupSession]

/-- Counterexample to C3 as stated: at seed 10000000 the embedded generator
(whose product exceeds `2 ^ 53` and is therefore rounded by the 64-bit float
arithmetic before the mask) does not satisfy the exact recurrence
`seed' = (seed * 1103515245 + 12345) mod 2 ^ 31`; the setup draw really uses
the embedded generator. -/
theorem c3_counterexample :
    (GapCrossingTask.setup 3.0 0.5 10000000).1.seed = BaseTask.seededRandomNext 10000000 ∧
    BaseTask.seededRandomNext 10000000 ≠ BaseTask.specLcgNext 10000000 :=
  ⟨rfl, by decide⟩

/-- Claim C3 (amended): the generator agrees with the stated exact
linear-congruential recurrence whenever the product stays below `2 ^ 53`
(beyond that the double rounding may perturb it); each task's setup draws
from the generator exactly once, so the procedurally varied quantity and the
post-setup seed are pure functions of the configured seed and configuration;
and no action application or termination check ever touches the seed, so the
generator is never reseeded mid-episode. -/
theorem c3_seeded_generator :
    (∀ seed : Nat, seed * 1103515245 + 12345 < 2 ^ 53 →
      BaseTask.seededRandomNext seed = BaseTask.specLcgNext seed)
    ∧ (∀ (gw gv : ℝ) (seed : Nat),
        (GapCrossingTask.setup gw gv seed).1.seed = BaseTask.seededRandomNext seed ∧
        (GapCrossingTask.setup gw gv seed).1.actualGapWidth = jitteredValue gw gv seed)
    ∧ (∀ (gw gv gpw : ℝ) (lzw lzs lze : Option ℝ) (seed : Nat),
        (GapCrossingTaskV2.setup gw gv gpw lzw lzs lze seed).1.seed =
          BaseTask.seededRandomNext seed ∧
        (GapCrossingTaskV2.setup gw gv gpw lzw lzs lze seed).1.actualGapWidth =
          jitteredValue gw gv seed)
    ∧ (∀ (bd bv bh : ℝ) (seed : Nat),
        (ThrowBlockTask.setup bd bv bh seed).1.seed = BaseTask.seededRandomNext seed ∧
        (ThrowBlockTask.setup bd bv bh seed).1.actualBasketDistance = jitteredValue bd bv seed)
    ∧ (∀ (bd bv bh : ℝ) (seed : Nat),
        (ThrowBlockTaskV2.setup bd bv bh seed).1.seed = BaseTask.seededRandomNext seed ∧
        (ThrowBlockTaskV2.setup bd bv bh seed).1.actualBasketDistance = jitteredValue bd bv seed)
    ∧ (∀ (g : ℝ) (st : GapCrossingTask.St) (b : Option Body) (a : Act),
        (GapCrossingTask.applyAction g st b a).1.seed = st.seed)
    ∧ (∀ (st : GapCrossingTask.St) (b : Option Body),
        (GapCrossingTask.checkTermination st b).2.seed = st.seed)
    ∧ (∀ (g : ℝ) (st : GapCrossingTaskV2.St) (b : Option Body) (a : Act) (now : ℝ),
        (GapCrossingTaskV2.applyAction g st b a now).1.seed = st.seed)
    ∧ (∀ (st : GapCrossingTaskV2.St) (b : Option Body),
        (GapCrossingTaskV2.checkTermination st b).2.seed = st.seed)
    ∧ (∀ (g : ℝ) (st : ThrowBlockTask.St) (ag bl : Option Body) (a : Act),
        (ThrowBlockTask.applyAction g st ag bl a).1.seed = st.seed)
    ∧ (∀ (st : ThrowBlockTask.St) (bl ag : Option Body),
        (ThrowBlockTask.checkTermination st bl ag).2.seed = st.seed)
    ∧ (∀ (g : ℝ) (st : ThrowBlockTaskV2.St) (ag bl : Option Body) (a : Act) (ds : Option ℝ),
        (ThrowBlockTaskV2.applyAction g st ag bl a ds).1.seed = st.seed)
    ∧ (∀ (st : ThrowBlockTaskV2.St) (bl ag : Option Body),
        (ThrowBlockTaskV2.checkTermination st bl ag).2.seed = st.seed) := by
  refine ⟨?_, fun gw gv seed => ⟨rfl, rfl⟩, fun gw gv gpw lzw lzs lze seed => ⟨rfl, rfl⟩,
    fun bd bv bh seed => ⟨rfl, rfl⟩, fun bd bv bh seed => ⟨rfl, rfl⟩, ?_, ?_, ?_, ?_, ?_, ?_, ?_, ?_⟩
  · intro seed h
    have h1 : seed * 1103515245 < 2 ^ 53 := lt_of_le_of_lt (Nat.le_add_right _ _) h
    unfold BaseTask.seededRandomNext BaseTask.specLcgNext flNat
    rw [if_pos h1, if_pos h]
  · intro g st b a
    cases b with
    | none => rfl
    | some ag =>
      simp only [GapCrossingTask.applyAction,
        apply_ite (fun s : GapCrossingTask.St => s.seed),
        apply_ite (fun r : GapCrossingTask.St × Vec3 => r.1.seed), ite_self]
  · intro st b
    cases b with
    | none => rfl
    | some ag =>
      simp only [GapCrossingTask.checkTermination,
        apply_ite (fun r : TermResult × GapCrossingTask.St => r.2.seed), ite_self]
  · intro g st b a now
    cases b with
    | none => rfl
    | some ag =>
      simp only [GapCrossingTaskV2.applyAction,
        apply_ite (fun s : GapCrossingTaskV2.St => s.seed),
        apply_ite (fun r : GapCrossingTaskV2.St × Vec3 => r.1.seed), ite_self]
  · intro st b
    cases b with
    | none => rfl
    | some ag =>
      simp only [GapCrossingTaskV2.checkTermination,
        apply_ite (fun r : TermResult × GapCrossingTaskV2.St => r.2.seed), ite_self]
  · intro g st ag bl a
    cases ag with
    | none => cases bl <;> rfl
    | some x =>
      cases bl with
      | none => rfl
      | some y =>
        simp only [ThrowBlockTask.applyAction,
          apply_ite (fun r : ThrowBlockTask.St × Vec3 × Body => r.1.seed), ite_self]
  · intro st bl ag
    cases bl with
    | none => cases ag <;> rfl
    | some x =>
      cases ag with
      | none => rfl
      | some y =>
        simp only [ThrowBlockTask.checkTermination,
          apply_ite (fun r : TermResult × ThrowBlockTask.St => r.2.seed), ite_self]
  · intro g st ag bl a ds
    cases ag with
    | none => cases bl <;> rfl
    | some x =>
      cases bl with
      | none => rfl
      | some y =>
        simp only [ThrowBlockTaskV2.applyAction,
          apply_ite (fun r : ThrowBlockTaskV2.St × Vec3 × Body => r.1.seed), ite_self]
  · intro st bl ag
    cases bl with
    | none => cases ag <;> rfl
    | some x =>
      cases ag with
      | none => rfl
      | some y =>
        simp only [ThrowBlockTaskV2.checkTermination,
          apply_ite (fun r : TermResult × ThrowBlockTaskV2.St => r.2.seed), ite_self]

/-- Witness for C3 at the default seed 42, whose product stays below
`2 ^ 53`. -/
theorem c3_witness :
    42 * 1103515245 + 12345 < 2 ^ 53 ∧
    BaseTask.seededRandomNext 42 = BaseTask.specLcgNext 42 :=
  ⟨by norm_num, c3_seeded_generator.1 42 (by norm_num)⟩

/-- An unrecognised action normalises to nothing in the vocabulary, so no
switch case matches it. -/
theorem unrecognized_ne (actions : List String) (a : Act) (h : unrecognized actions a) :
    ∀ lbl ∈ actions, normalizeAction actions a ≠ some lbl := by
  intro lbl hl
  cases a with
  | str s =>
    simp only [unrecognized] at h
    simp only [normalizeAction]
    intro e
    rw [Option.some_inj] at e
    exact h (by rw [e]; exact hl)
  | num i =>
    by_cases hi : i < 0
    · simp [normalizeAction, hi]
    · rcases h with hneg | hlen
      · exact absurd hneg hi
      · simp [normalizeAction, hi, List.getElem?_eq_none hlen]

/-- Claim C10: an action that is neither a recognised action string after
case normalisation nor a numeric index into the task's action list is not an
error — every task's `applyAction` treats it exactly as `idle` (the default
switch branch, which only applies velocity drag), and in particular the
holding flag of the manipulation tasks is unchanged. -/
theorem c10_unknown_action :
    (∀ (g : ℝ) (st : GapCrossingTask.St) (b : Option Body) (a : Act),
      unrecognized GapCrossingTask.actions a →
      GapCrossingTask.applyAction g st b a =
        GapCrossingTask.applyAction g st b (Act.str "idle"))
    ∧ (∀ (g : ℝ) (st : GapCrossingTaskV2.St) (b : Option Body) (a : Act) (now : ℝ),
      unrecognized GapCrossingTaskV2.actions a →
      GapCrossingTaskV2.applyAction g st b a now =
        GapCrossingTaskV2.applyAction g st b (Act.str "idle") now)
    ∧ (∀ (g : ℝ) (st : ThrowBlockTask.St) (ag bl : Option Body) (a : Act),
      unrecognized ThrowBlockTask.actions a →
      ThrowBlockTask.applyAction g st ag bl a =
        ThrowBlockTask.applyAction g st ag bl (Act.str "idle"))
    ∧ (∀ (g : ℝ) (st : ThrowBlockTaskV2.St) (ag bl : Option Body) (a : Act) (ds : Option ℝ),
      unrecognized ThrowBlockTaskV2.actions a →
      ThrowBlockTaskV2.applyAction g st ag bl a ds =
        ThrowBlockTaskV2.applyAction g st ag bl (Act.str "idle") ds)
    ∧ (∀ (g : ℝ) (st : ThrowBlockTask.St) (ag bl : Option Body) (a : Act),
      unrecognized ThrowBlockTask.actions a →
      (ThrowBlockTask.applyAction g st ag bl a).1.holdingBlock = st.holdingBlock)
    ∧ (∀ (g : ℝ) (st : ThrowBlockTaskV2.St) (ag bl : Option Body) (a : Act) (ds : Option ℝ),
      unrecognized ThrowBlockTaskV2.actions a →
      (ThrowBlockTaskV2.applyAction g st ag bl a ds).1.holdingBlock = st.holdingBlock) := by
  have hgap : ∀ (g : ℝ) (st : GapCrossingTask.St) (b : Option Body) (a : Act),
      unrecognized GapCrossingTask.actions a →
      GapCrossingTask.applyAction g st b a =
        GapCrossingTask.applyAction g st b (Act.str "idle") := by
    intro g st b a h
    have hn := unrecognized_ne GapCrossingTask.actions a h
    cases b with
    | none => rfl
    | some ag =>
      simp [GapCrossingTask.applyAction, hn "forward" (by decide), hn "back" (by decide),
        hn "left" (by decide), hn "right" (by decide), hn "jump" (by decide),
        show normalizeAction GapCrossingTask.actions (Act.str "idle") = some "idle" from
          by decide]
  have hgap2 : ∀ (g : ℝ) (st : GapCrossingTaskV2.St) (b : Option Body) (a : Act) (now : ℝ),
      unrecognized GapCrossingTaskV2.actions a →
      GapCrossingTaskV2.applyAction g st b a now =
        GapCrossingTaskV2.applyAction g st b (Act.str "idle") now := by
    intro g st b a now h
    have hn := unrecognized_ne GapCrossingTaskV2.actions a h
    cases b with
    | none => rfl
    | some ag =>
      simp [GapCrossingTaskV2.applyAction, hn "forward" (by decide), hn "back" (by decide),
        hn "left" (by decide), hn "right" (by decide), hn "jump" (by decide),
        show normalizeAction GapCrossingTaskV2.actions (Act.str "idle") = some "idle" from
          by decide]
  have hthrow : ∀ (g : ℝ) (st : ThrowBlockTask.St) (ag bl : Option Body) (a : Act),
      unrecognized ThrowBlockTask.actions a →
      ThrowBlockTask.applyAction g st ag bl a =
        ThrowBlockTask.applyAction g st ag bl (Act.str "idle") := by
    intro g st ag bl a h
    have hn := unrecognized_ne ThrowBlockTask.actions a h
    cases ag with
    | none => cases bl <;> rfl
    | some x =>
      cases bl with
      | none => rfl
      | some y =>
        simp [ThrowBlockTask.applyAction, hn "forward" (by decide), hn "back" (by decide),
          hn "left" (by decide), hn "right" (by decide), hn "pick" (by decide),
          hn "drop" (by decide), hn "throw_weak" (by decide), hn "throw_medium" (by decide),
          hn "throw_strong" (by decide),
          show normalizeAction ThrowBlockTask.actions (Act.str "idle") = some "idle" from
            by decide]
  have hthrow2 : ∀ (g : ℝ) (st : ThrowBlockTaskV2.St) (ag bl : Option Body) (a : Act)
      (ds : Option ℝ),
      unrecognized ThrowBlockTaskV2.actions a →
      ThrowBlockTaskV2.applyAction g st ag bl a ds =
        ThrowBlockTaskV2.applyAction g st ag bl (Act.str "idle") ds := by
    intro g st ag bl a ds h
    have hn := unrecognized_ne ThrowBlockTaskV2.actions a h
    cases ag with
    | none => cases bl <;> rfl
    | some x =>
      cases bl with
      | none => rfl
      | some y =>
        simp [ThrowBlockTaskV2.applyAction, hn "forward" (by decide), hn "back" (by decide),
          hn "left" (by decide), hn "right" (by decide), hn "pick" (by decide),
          hn "drop" (by decide), hn "throw_weak" (by decide), hn "throw_medium" (by decide),
          hn "throw_strong" (by decide),
          show normalizeAction ThrowBlockTaskV2.actions (Act.str "idle") = some "idle" from
            by decide]
  have hhold : ∀ (g : ℝ) (st : ThrowBlockTask.St) (ag bl : Option Body) (a : Act),
      unrecognized ThrowBlockTask.actions a →
      (ThrowBlockTask.applyAction g st ag bl a).1.holdingBlock = st.holdingBlock := by
    intro g st ag bl a h
    rw [hthrow g st ag bl a h]
    cases ag with
    | none => cases bl <;> rfl
    | some x =>
      cases bl with
      | none => rfl
      | some y =>
        simp [ThrowBlockTask.applyAction,
          show normalizeAction ThrowBlockTask.actions (Act.str "idle") = some "idle" from
            by decide]
  have hhold2 : ∀ (g : ℝ) (st : ThrowBlockTaskV2.St) (ag bl : Option Body) (a : Act)
      (ds : Option ℝ),
      unrecognized ThrowBlockTaskV2.actions a →
      (ThrowBlockTaskV2.applyAction g st ag bl a ds).1.holdingBlock = st.holdingBlock := by
    intro g st ag bl a ds h
    rw [hthrow2 g st ag bl a ds h]
    cases ag with
    | none => cases bl <;> rfl
    | some x =>
      cases bl with
      | none => rfl
      | some y =>
        simp [ThrowBlockTaskV2.applyAction,
          show normalizeAction ThrowBlockTaskV2.actions (Act.str "idle") = some "idle" from
            by decide]
  exact ⟨hgap, hgap2, hthrow, hthrow2, hhold, hhold2⟩

/-- Witness for C10: the unknown string `fly` and the out-of-range index 10
behave exactly as `idle` on concrete states. -/
theorem c10_witness :
    unrecognized GapCrossingTask.actions (Act.str "fly") ∧
    GapCrossingTask.applyAction 9.81 stC4 (some agC4) (Act.str "fly") =
      GapCrossingTask.applyAction 9.81 stC4 (some agC4) (Act.str "idle") ∧
    unrecognized ThrowBlockTaskV2.actions (Act.num 10) ∧
    ThrowBlockTaskV2.applyAction 9.81 stC8 (some agC8) (some blC8) (Act.num 10) none =
      ThrowBlockTaskV2.applyAction 9.81 stC8 (some agC8) (some blC8) (Act.str "idle") none ∧
    (ThrowBlockTaskV2.applyAction 9.81 stC8 (some agC8) (some blC8) (Act.num 10)
        none).1.holdingBlock = stC8.holdingBlock := by
  have h1 : unrecognized GapCrossingTask.actions (Act.str "fly") :=
    show lowerString "fly" ∉ GapCrossingTask.actions from by decide
  have h2 : unrecognized ThrowBlockTaskV2.actions (Act.num 10) :=
    Or.inr (by decide)
  exact ⟨h1, c10_unknown_action.1 9.81 stC4 (some agC4) (Act.str "fly") h1,
   h2,
   c10_unknown_action.2.2.2.1 9.81 stC8 (some agC8) (some blC8) (Act.num 10) none h2,
   c10_unknown_action.2.2.2.2.2 9.81 stC8 (some agC8) (some blC8) (Act.num 10) none h2⟩

/-- Claim C8: a pick while not holding sets the holding flag exactly when the
planar agent–block distance is strictly under the task's pickup radius
(1.5 in V1, 1.8 in V2); and whenever an action application ends with the
block held, the block has been repositioned to the fixed offset
`(+0.5, +0.2, +0)` from the agent with its velocity zeroed. -/
theorem c8_pick_and_hold :
    (∀ (g : ℝ) (st : ThrowBlockTask.St) (ag bl : Body),
      st.holdingBlock = false →
      ((ThrowBlockTask.applyAction g st (some ag) (some bl)
          (Act.str "pick")).1.holdingBlock = true ↔
        Real.sqrt ((ag.pos.x - bl.pos.x) ^ 2 + (ag.pos.z - bl.pos.z) ^ 2) < 1.5))
    ∧ (∀ (g : ℝ) (st : ThrowBlockTaskV2.St) (ag bl : Body) (ds : Option ℝ),
      st.holdingBlock = false →
      ((ThrowBlockTaskV2.applyAction g st (some ag) (some bl)
          (Act.str "pick") ds).1.holdingBlock = true ↔
        Real.sqrt ((ag.pos.x - bl.pos.x) ^ 2 + (ag.pos.z - bl.pos.z) ^ 2) <
          ThrowBlockTaskV2.pickupRange))
    ∧ (∀ (g : ℝ) (st : ThrowBlockTask.St) (ag bl : Body) (a : Act),
      (ThrowBlockTask.applyAction g st (some ag) (some bl) a).1.holdingBlock = true →
      (ThrowBlockTask.applyAction g st (some ag) (some bl) a).2.2 =
        some { pos := { x := ag.pos.x + 0.5, y := ag.pos.y + 0.2, z := ag.pos.z },
               vel := { x := 0, y := 0, z := 0 } })
    ∧ (∀ (g : ℝ) (st : ThrowBlockTaskV2.St) (ag bl : Body) (a : Act) (ds : Option ℝ),
      (ThrowBlockTaskV2.applyAction g st (some ag) (some bl) a ds).1.holdingBlock = true →
      (ThrowBlockTaskV2.applyAction g st (some ag) (some bl) a ds).2.2 =
        some { pos := { x := ag.pos.x + 0.5, y := ag.pos.y + 0.2, z := ag.pos.z },
               vel := { x := 0, y := 0, z := 0 } }) := by
  refine ⟨?_, ?_, ?_, ?_⟩
  · intro g st ag bl h
    have hpick : normalizeAction ThrowBlockTask.actions (Act.str "pick") = some "pick" := by
      decide
    by_cases hd : Real.sqrt ((ag.pos.x - bl.pos.x) ^ 2 + (ag.pos.z - bl.pos.z) ^ 2) < 1.5
    · simp [ThrowBlockTask.applyAction, hpick, h, hd]
    · simp [ThrowBlockTask.applyAction, hpick, h, hd]
  · intro g st ag bl ds h
    have hpick : normalizeAction ThrowBlockTaskV2.actions (Act.str "pick") = some "pick" := by
      decide
    by_cases hd : Real.sqrt ((ag.pos.x - bl.pos.x) ^ 2 + (ag.pos.z - bl.pos.z) ^ 2) <
        ThrowBlockTaskV2.pickupRange
    · simp [ThrowBlockTaskV2.applyAction, hpick, h, hd]
    · simp [ThrowBlockTaskV2.applyAction, hpick, h, hd]
  · intro g st ag bl a h
    simp only [ThrowBlockTask.applyAction] at h ⊢
    rw [if_pos h]
  · intro g st ag bl a ds h
    simp only [ThrowBlockTaskV2.applyAction] at h ⊢
    rw [if_pos h]

/-- Witness for C8: from the V2 spawn positions a pick at 0.7 m succeeds and
pins the block to the agent offset; from 3.3 m away it leaves the holding
flag false. -/
theorem c8_witness :
    stC8.holdingBlock = false ∧
    (ThrowBlockTaskV2.applyAction 9.81 stC8 (some agC8) (some blC8)
        (Act.str "pick") none).1.holdingBlock = true ∧
    (ThrowBlockTaskV2.applyAction 9.81 stC8 (some agC8) (some blC8)
        (Act.str "pick") none).2.2 =
      some { pos := { x := agC8.pos.x + 0.5, y := agC8.pos.y + 0.2, z := agC8.pos.z },
             vel := { x := 0, y := 0, z := 0 } } ∧
    (ThrowBlockTaskV2.applyAction 9.81 stC8 (some agC8far) (some blC8)
        (Act.str "pick") none).1.holdingBlock = false := by
  have hnear : Real.sqrt ((agC8.pos.x - blC8.pos.x) ^ 2 + (agC8.pos.z - blC8.pos.z) ^ 2) <
      ThrowBlockTaskV2.pickupRange := by
    have : ((agC8.pos.x - blC8.pos.x) ^ 2 + (agC8.pos.z - blC8.pos.z) ^ 2 : ℝ) =
        (0.7 : ℝ) ^ 2 := by
      norm_num [agC8, blC8]
    rw [this, Real.sqrt_sq (by norm_num : (0:ℝ) ≤ 0.7)]
    norm_num [ThrowBlockTaskV2.pickupRange]
  have hfar : ¬ Real.sqrt ((agC8far.pos.x - blC8.pos.x) ^ 2 +
      (agC8far.pos.z - blC8.pos.z) ^ 2) < ThrowBlockTaskV2.pickupRange := by
    have : ((agC8far.pos.x - blC8.pos.x) ^ 2 + (agC8far.pos.z - blC8.pos.z) ^ 2 : ℝ) =
        (3.3 : ℝ) ^ 2 := by
      norm_num [agC8far, blC8]
    rw [this, Real.sqrt_sq (by norm_num : (0:ℝ) ≤ 3.3)]
    norm_num [ThrowBlockTaskV2.pickupRange]
  have hhold := (c8_pick_and_hold.2.1 9.81 stC8 agC8 blC8 none rfl).mpr hnear
  refine ⟨rfl, hhold, c8_pick_and_hold.2.2.2 9.81 stC8 agC8 blC8 (Act.str "pick") none hhold, ?_⟩
  cases hb : (ThrowBlockTaskV2.applyAction 9.81 stC8 (some agC8far) (some blC8)
      (Act.str "pick") none).1.holdingBlock with
  | false => rfl
  | true => exact absurd ((c8_pick_and_hold.2.1 9.81 stC8 agC8far blC8 none rfl).mp hb) hfar

/-- Counterexample to C6 as stated: the V2 run-up bonus is keyed on the
forward velocity component `velocity.x`, not on the horizontal speed — this
grounded agent moves sideways at 4 m/s (horizontal speed 4, over half the
move speed), yet its accepted jump gets the unboosted velocity. -/
theorem c6_counterexample :
    Real.sqrt (agC6.vel.x ^ 2 + agC6.vel.z ^ 2) > GapCrossingTaskV2.moveSpeed * 0.5 ∧
    ((GapCrossingTaskV2.applyAction 9.81 stC6 (some agC6) (Act.str "jump") 1000).2.map
        fun b => b.vel.y) =
      some (Real.sqrt (2 * 9.81 * GapCrossingTaskV2.jumpHeight)) ∧
    Real.sqrt (2 * 9.81 * GapCrossingTaskV2.jumpHeight) ≠
      Real.sqrt (2 * 9.81 * GapCrossingTaskV2.jumpHeight) * GapCrossingTaskV2.runUpBonus := by
  have hjump : normalizeAction GapCrossingTaskV2.actions (Act.str "jump") = some "jump" := by
    decide
  refine ⟨?_, ?_, ?_⟩
  · have h4 : (agC6.vel.x ^ 2 + agC6.vel.z ^ 2 : ℝ) = 4 ^ 2 := by norm_num [agC6]
    rw [h4, Real.sqrt_sq (by norm_num : (0:ℝ) ≤ 4)]
    norm_num [GapCrossingTaskV2.moveSpeed]
  · simp only [GapCrossingTaskV2.applyAction, hjump, Option.map]
    norm_num [stC6, agC6, GapCrossingTaskV2.agentHeight, GapCrossingTaskV2.moveSpeed,
      GapCrossingTaskV2.jumpHeight, GapCrossingTaskV2.jumpCooldownMs, clamp,
      decide_eq_true_eq]
    simp
  · intro h
    have h0 : 0 < Real.sqrt (2 * 9.81 * GapCrossingTaskV2.jumpHeight) :=
      Real.sqrt_pos.mpr (by norm_num [GapCrossingTaskV2.jumpHeight])
    rw [GapCrossingTaskV2.runUpBonus] at h
    nlinarith [h, h0]

/-- Claim C6 (amended): an accepted jump (grounded, jump permitted, and in V2
past the cooldown) sets the vertical velocity to `sqrt(2·g·desiredHeight)`;
in V2 this is multiplied by the run-up bonus exactly when the forward
velocity component `velocity.x` at takeoff exceeds half the configured move
speed. -/
theorem c6_jump :
    (∀ (g : ℝ) (st : GapCrossingTask.St) (ag : Body),
      |ag.vel.y| < 0.1 → ag.pos.y < GapCrossingTask.agentHeight / 2 + 0.3 →
      st.canJump = true →
      ((GapCrossingTask.applyAction g st (some ag) (Act.str "jump")).2.map
          fun b => b.vel.y) = some (Real.sqrt (2 * g * 2.0)))
    ∧ (∀ (g : ℝ) (st : GapCrossingTaskV2.St) (ag : Body) (now : ℝ),
      |ag.vel.y| < 0.1 → ag.pos.y < GapCrossingTaskV2.agentHeight / 2 + 0.3 →
      (st.isGrounded = false ∨ st.canJump = true) →
      now - st.lastJumpTime > GapCrossingTaskV2.jumpCooldownMs →
      ((GapCrossingTaskV2.applyAction g st (some ag) (Act.str "jump") now).2.map
          fun b => b.vel.y) =
        some (Real.sqrt (2 * g * GapCrossingTaskV2.jumpHeight) *
          (if ag.vel.x > GapCrossingTaskV2.moveSpeed * 0.5 then GapCrossingTaskV2.runUpBonus
           else 1))) := by
  constructor
  · intro g st ag h1 h2 h3
    have hjump : normalizeAction GapCrossingTask.actions (Act.str "jump") = some "jump" := by
      decide
    simp [GapCrossingTask.applyAction, hjump, h1, h2, h3, clamp]
  · intro g st ag now h1 h2 h3 h4
    have hjump : normalizeAction GapCrossingTaskV2.actions (Act.str "jump") = some "jump" := by
      decide
    have hcj : (if !st.isGrounded && decide (|ag.vel.y| < 0.1 ∧
        ag.pos.y < GapCrossingTaskV2.agentHeight / 2 + 0.3) then true else st.canJump) = true := by
      rcases h3 with h3 | h3
      · simp [h3, h1, h2]
      · simp [h3]
    by_cases hb : ag.vel.x > GapCrossingTaskV2.moveSpeed * 0.5
    · simp [GapCrossingTaskV2.applyAction, hjump, h1, h2, h3, h4, hcj, hb, clamp]
    · simp [GapCrossingTaskV2.applyAction, hjump, h1, h2, h3, h4, hcj, hb, clamp]

/-- Witness for C6: a grounded V1 jump and a grounded V2 jump with a 2 m/s
run-up (bonus applied). -/
theorem c6_witness :
    (|agC6run.vel.y| < 0.1 ∧ agC6run.pos.y < GapCrossingTask.agentHeight / 2 + 0.3 ∧
      stC4.canJump = true ∧
      ((GapCrossingTask.applyAction 9.81 stC4 (some agC6run) (Act.str "jump")).2.map
          fun b => b.vel.y) = some (Real.sqrt (2 * 9.81 * 2.0)))
    ∧ (stC6.canJump = true ∧ (1000:ℝ) - stC6.lastJumpTime > GapCrossingTaskV2.jumpCooldownMs ∧
      ((GapCrossingTaskV2.applyAction 9.81 stC6 (some agC6run) (Act.str "jump") 1000).2.map
          fun b => b.vel.y) =
        some (Real.sqrt (2 * 9.81 * GapCrossingTaskV2.jumpHeight) *
          (if agC6run.vel.x > GapCrossingTaskV2.moveSpeed * 0.5 then
            GapCrossingTaskV2.runUpBonus else 1))) := by
  constructor
  · exact ⟨by norm_num [agC6run], by norm_num [agC6run, GapCrossingTask.agentHeight], rfl,
      c6_jump.1 9.81 stC4 agC6run (by norm_num [agC6run])
        (by norm_num [agC6run, GapCrossingTask.agentHeight]) rfl⟩
  · exact ⟨rfl, by norm_num [stC6, GapCrossingTaskV2.jumpCooldownMs],
      c6_jump.2 9.81 stC6 agC6run 1000 (by norm_num [agC6run])
        (by norm_num [agC6run, GapCrossingTaskV2.agentHeight]) (Or.inr rfl)
        (by norm_num [stC6, GapCrossingTaskV2.jumpCooldownMs])⟩

/-- Counterexample to C7 as stated: the V1 throw sets the block velocity to
`(strength, strength·0.5·sqrt(g/9.81), 0)` in world axes — this concrete
throw from `z = 2` (basket centre not straight ahead) produces a velocity
that is not the launch-angle decomposition along the unit vector from the
release point toward the basket centre for any angle. -/
theorem c7_counterexample :
    (ThrowBlockTask.applyAction 9.81 stC7 (some agC7) (some blC7)
        (Act.str "throw_weak")).1.holdingBlock = false ∧
    (ThrowBlockTask.applyAction 9.81 stC7 (some agC7) (some blC7)
        (Act.str "throw_weak")).2.2 =
      some { pos := { x := 0.8, y := 1.3, z := 2 }, vel := { x := 5, y := 2.5, z := 0 } } ∧
    ¬ ∃ θ : ℝ,
      (5:ℝ) = 5 * Real.cos θ * ((stC7.actualBasketDistance - 0.8) /
          Real.sqrt ((stC7.actualBasketDistance - 0.8) ^ 2 + ((0:ℝ) - 2) ^ 2)) ∧
      (2.5:ℝ) = 5 * Real.sin θ ∧
      (0:ℝ) = 5 * Real.cos θ * (((0:ℝ) - 2) /
          Real.sqrt ((stC7.actualBasketDistance - 0.8) ^ 2 + ((0:ℝ) - 2) ^ 2)) := by
  have hthrow : normalizeAction ThrowBlockTask.actions (Act.str "throw_weak") =
      some "throw_weak" := by decide
  refine ⟨?_, ?_, ?_⟩
  · simp [ThrowBlockTask.applyAction, hthrow, stC7]
  · simp only [ThrowBlockTask.applyAction, hthrow]
    norm_num [stC7, agC7, ThrowBlockTask.throwStrengths, ThrowBlockTask.agentHeight,
      Real.sqrt_one, decide_eq_true_eq]
    simp
  · rintro ⟨θ, hx, -, hz⟩
    simp only [stC7] at hx hz
    have hdpos : 0 < Real.sqrt (((6:ℝ) - 0.8) ^ 2 + ((0:ℝ) - 2) ^ 2) :=
      Real.sqrt_pos.mpr (by norm_num)
    have hz' : 5 * Real.cos θ * (((0:ℝ) - 2) /
        Real.sqrt (((6:ℝ) - 0.8) ^ 2 + ((0:ℝ) - 2) ^ 2)) = 0 := hz.symm
    rcases mul_eq_zero.mp hz' with h5 | hdv
    · rcases mul_eq_zero.mp h5 with h55 | hc
      · norm_num at h55
      · rw [hc] at hx
        norm_num at hx
    · rcases div_eq_zero_iff.mp hdv with h02 | hd0
      · norm_num at h02
      · exact absurd hd0 (ne_of_gt hdpos)

/-- Claim C7 (amended, restricted to the second revision): a V2 throw while
holding looks the magnitude up in the strength table, aims the planar
component at the basket centre from the release point, decomposes it along
the fixed 45-degree launch angle, and releases the block; the V1 throw
instead sets `(strength, strength·0.5·sqrt(g/9.81), 0)` in world axes with no
auto-aim, also releasing the block. -/
theorem c7_throw :
    (∀ (g : ℝ) (st : ThrowBlockTaskV2.St) (ag bl : Body) (ds : Option ℝ) (k : String),
      k ∈ ["throw_weak", "throw_medium", "throw_strong"] →
      st.holdingBlock = true →
      (ThrowBlockTaskV2.applyAction g st (some ag) (some bl)
          (Act.str k) ds).1.holdingBlock = false ∧
      (ThrowBlockTaskV2.applyAction g st (some ag) (some bl) (Act.str k) ds).2.2 =
        some { pos := { x := ag.pos.x + 0.6, y := ag.pos.y + 0.4, z := ag.pos.z },
               vel :=
                 { x := ThrowBlockTaskV2.throwStrengths (throwKey k) *
                     Real.cos ThrowBlockTaskV2.throwAngle *
                     ((st.actualBasketDistance - (ag.pos.x + 0.6)) /
                       Real.sqrt ((st.actualBasketDistance - (ag.pos.x + 0.6)) *
                           (st.actualBasketDistance - (ag.pos.x + 0.6)) +
                         (0 - ag.pos.z) * (0 - ag.pos.z)))
                   y := ThrowBlockTaskV2.throwStrengths (throwKey k) *
                     Real.sin ThrowBlockTaskV2.throwAngle
                   z := ThrowBlockTaskV2.throwStrengths (throwKey k) *
                     Real.cos ThrowBlockTaskV2.throwAngle *
                     ((0 - ag.pos.z) /
                       Real.sqrt ((st.actualBasketDistance - (ag.pos.x + 0.6)) *
                           (st.actualBasketDistance - (ag.pos.x + 0.6)) +
                         (0 - ag.pos.z) * (0 - ag.pos.z))) } })
    ∧ (∀ (g : ℝ) (st : ThrowBlockTask.St) (ag bl : Body) (k : String),
      k ∈ ["throw_weak", "throw_medium", "throw_strong"] →
      st.holdingBlock = true →
      (ThrowBlockTask.applyAction g st (some ag) (some bl)
          (Act.str k)).1.holdingBlock = false ∧
      (ThrowBlockTask.applyAction g st (some ag) (some bl) (Act.str k)).2.2 =
        some { pos := { x := ag.pos.x + 0.8, y := ag.pos.y + 0.3, z := ag.pos.z },
               vel := { x := ThrowBlockTask.throwStrengths (throwKey k),
                        y := ThrowBlockTask.throwStrengths (throwKey k) * 0.5 *
                          Real.sqrt (g / 9.81),
                        z := 0 } }) := by
  constructor
  · intro g st ag bl ds k hk h
    simp only [List.mem_cons, List.not_mem_nil, or_false] at hk
    rcases hk with hk | hk | hk
    · subst hk
      have hn : normalizeAction ThrowBlockTaskV2.actions (Act.str "throw_weak") =
          some "throw_weak" := by decide
      exact ⟨by simp [ThrowBlockTaskV2.applyAction, hn, h],
        by simp [ThrowBlockTaskV2.applyAction, hn, h, throwKey]⟩
    · subst hk
      have hn : normalizeAction ThrowBlockTaskV2.actions (Act.str "throw_medium") =
          some "throw_medium" := by decide
      exact ⟨by simp [ThrowBlockTaskV2.applyAction, hn, h],
        by simp [ThrowBlockTaskV2.applyAction, hn, h, throwKey]⟩
    · subst hk
      have hn : normalizeAction ThrowBlockTaskV2.actions (Act.str "throw_strong") =
          some "throw_strong" := by decide
      exact ⟨by simp [ThrowBlockTaskV2.applyAction, hn, h],
        by simp [ThrowBlockTaskV2.applyAction, hn, h, throwKey]⟩
  · intro g st ag bl k hk h
    simp only [List.mem_cons, List.not_mem_nil, or_false] at hk
    rcases hk with hk | hk | hk
    · subst hk
      have hn : normalizeAction ThrowBlockTask.actions (Act.str "throw_weak") =
          some "throw_weak" := by decide
      exact ⟨by simp [ThrowBlockTask.applyAction, hn, h],
        by simp [ThrowBlockTask.applyAction, hn, h, throwKey]⟩
    · subst hk
      have hn : normalizeAction ThrowBlockTask.actions (Act.str "throw_medium") =
          some "throw_medium" := by decide
      exact ⟨by simp [ThrowBlockTask.applyAction, hn, h],
        by simp [ThrowBlockTask.applyAction, hn, h, throwKey]⟩
    · subst hk
      have hn : normalizeAction ThrowBlockTask.actions (Act.str "throw_strong") =
          some "throw_strong" := by decide
      exact ⟨by simp [ThrowBlockTask.applyAction, hn, h],
        by simp [ThrowBlockTask.applyAction, hn, h, throwKey]⟩

/-- Witness for C7: a V2 medium throw from the held state and a V1 weak
throw. -/
theorem c7_witness :
    stC8hold.holdingBlock = true ∧
    ((ThrowBlockTaskV2.applyAction 9.81 stC8hold (some agC8) (some blC8)
        (Act.str "throw_medium") none).1.holdingBlock = false ∧
      (ThrowBlockTaskV2.applyAction 9.81 stC8hold (some agC8) (some blC8)
          (Act.str "throw_medium") none).2.2 =
        some { pos := { x := agC8.pos.x + 0.6, y := agC8.pos.y + 0.4, z := agC8.pos.z },
               vel :=
                 { x := ThrowBlockTaskV2.throwStrengths (throwKey "throw_medium") *
                     Real.cos ThrowBlockTaskV2.throwAngle *
                     ((stC8hold.actualBasketDistance - (agC8.pos.x + 0.6)) /
                       Real.sqrt ((stC8hold.actualBasketDistance - (agC8.pos.x + 0.6)) *
                           (stC8hold.actualBasketDistance - (agC8.pos.x + 0.6)) +
                         (0 - agC8.pos.z) * (0 - agC8.pos.z)))
                   y := ThrowBlockTaskV2.throwStrengths (throwKey "throw_medium") *
                     Real.sin ThrowBlockTaskV2.throwAngle
                   z := ThrowBlockTaskV2.throwStrengths (throwKey "throw_medium") *
                     Real.cos ThrowBlockTaskV2.throwAngle *
                     ((0 - agC8.pos.z) /
                       Real.sqrt ((stC8hold.actualBasketDistance - (agC8.pos.x + 0.6)) *
                           (stC8hold.actualBasketDistance - (agC8.pos.x + 0.6)) +
                         (0 - agC8.pos.z) * (0 - agC8.pos.z))) } }) ∧
    ((ThrowBlockTask.applyAction 9.81 stC7 (some agC7) (some blC7)
        (Act.str "throw_weak")).1.holdingBlock = false ∧
      (ThrowBlockTask.applyAction 9.81 stC7 (some agC7) (some blC7)
          (Act.str "throw_weak")).2.2 =
        some { pos := { x := agC7.pos.x + 0.8, y := agC7.pos.y + 0.3, z := agC7.pos.z },
               vel := { x := ThrowBlockTask.throwStrengths (throwKey "throw_weak"),
                        y := ThrowBlockTask.throwStrengths (throwKey "throw_weak") * 0.5 *
                          Real.sqrt (9.81 / 9.81),
                        z := 0 } }) :=
  ⟨rfl,
   c7_throw.1 9.81 stC8hold agC8 blC8 none "throw_medium" (by decide) rfl,
   c7_throw.2 9.81 stC7 agC7 blC7 "throw_weak" (by decide) rfl⟩

/-- A streak counter driven by a compliance predicate never exceeds the
number of checks performed. -/
theorem streakSeq_le (K : Nat) (ss : Nat → Nat) (P : Nat → Prop)
    (h0 : ss 0 = 0)
    (hstep : ∀ j, j < K → (P j ∧ ss (j + 1) = ss j + 1) ∨ (¬ P j ∧ ss (j + 1) = 0)) :
    ∀ j, j ≤ K → ss j ≤ j := by
  intro j
  induction j with
  | zero => intro _; simp [h0]
  | succ j ih =>
    intro hj
    have hjK : j < K := Nat.lt_of_succ_le hj
    rcases hstep j hjK with ⟨_, he⟩ | ⟨_, he⟩
    · rw [he]
      exact Nat.succ_le_succ (ih hjK.le)
    · rw [he]
      exact Nat.zero_le _

/-- A streak counter certifies a trailing compliance window: after check
`j`, the last `ss j` checks were all compliant. -/
theorem streakSeq_back (K : Nat) (ss : Nat → Nat) (P : Nat → Prop)
    (_h0 : ss 0 = 0)
    (hstep : ∀ j, j < K → (P j ∧ ss (j + 1) = ss j + 1) ∨ (¬ P j ∧ ss (j + 1) = 0)) :
    ∀ j, j ≤ K → ∀ t, j - ss j ≤ t → t < j → P t := by
  intro j
  induction j with
  | zero => intro _ t _ ht; exact absurd ht (Nat.not_lt_zero t)
  | succ j ih =>
    intro hj t h1 h2
    have hjK : j < K := Nat.lt_of_succ_le hj
    rcases hstep j hjK with ⟨hp, he⟩ | ⟨hp, he⟩
    · rcases Nat.lt_succ_iff_lt_or_eq.mp h2 with h2' | h2'
      · refine ih hjK.le t ?_ h2'
        rw [he] at h1
        omega
      · subst h2'
        exact hp
    · rw [he] at h1
      exact absurd h2 (Nat.not_lt.mpr (by omega))

/-- The `GapCrossingTask.checkTermination` never changes the goal zone. -/
theorem gapV1_check_zone (st : GapCrossingTask.St) (b : Option Body) :
    (GapCrossingTask.checkTermination st b).2.goalZone = st.goalZone := by
  cases b with
  | none => rfl
  | some ag =>
    simp only [GapCrossingTask.checkTermination,
      apply_ite (fun r : TermResult × GapCrossingTask.St => r.2.goalZone), ite_self]

/-- The `GapCrossingTask.checkTermination` never changes the stored streak
requirement inputs along a run. -/
theorem gapV1_run_zone (st0 : GapCrossingTask.St) (inp : Nat → Option Body) :
    ∀ k, (GapCrossingTask.checkRun st0 inp k).goalZone = st0.goalZone := by
  intro k
  induction k with
  | zero => rfl
  | succ k ih =>
    rw [GapCrossingTask.checkRun, gapV1_check_zone, ih]

/-- Dichotomy of a non-terminating V1 traversal check: a compliant input
increments the streak, a non-compliant one resets it to zero. -/
theorem gapV1_step_dichotomy (st0 : GapCrossingTask.St) (inp : Nat → Option Body) (j : Nat)
    (hnd : (GapCrossingTask.resAt st0 inp j).done = false) :
    (GapCrossingTask.compliantAt st0.goalZone (inp j) ∧
      (GapCrossingTask.checkRun st0 inp (j + 1)).successSteps =
        (GapCrossingTask.checkRun st0 inp j).successSteps + 1) ∨
    (¬ GapCrossingTask.compliantAt st0.goalZone (inp j) ∧
      (GapCrossingTask.checkRun st0 inp (j + 1)).successSteps = 0) := by
  unfold GapCrossingTask.resAt at hnd
  rw [show (GapCrossingTask.checkRun st0 inp (j + 1)) =
    (GapCrossingTask.checkTermination (GapCrossingTask.checkRun st0 inp j) (inp j)).2 from rfl]
  have hz := gapV1_run_zone st0 inp j
  cases hin : inp j with
  | none => rw [hin] at hnd; simp [GapCrossingTask.checkTermination] at hnd
  | some ag =>
    rw [hin] at hnd
    by_cases hf : ag.pos.y < -5
    · simp [GapCrossingTask.checkTermination, hf] at hnd
    by_cases hg : inZone (GapCrossingTask.checkRun st0 inp j).goalZone ag.pos
    · by_cases hN : (GapCrossingTask.checkRun st0 inp j).successSteps + 1 ≥
          GapCrossingTask.requiredSuccessSteps
      · simp [GapCrossingTask.checkTermination, hf, hg, hN] at hnd
      · left
        refine ⟨⟨ag, rfl, by rw [← hz]; exact hg⟩, ?_⟩
        simp [GapCrossingTask.checkTermination, hf, hg, hN]
    · right
      refine ⟨?_, by simp [GapCrossingTask.checkTermination, hf, hg]⟩
      rintro ⟨ag', he, hg'⟩
      rw [Option.some_inj] at he
      subst he
      exact hg (by rw [hz]; exact hg')

/-- A successful V1 traversal check requires the agent in the goal zone with
a streak one short of the requirement. -/
theorem gapV1_success_char (st : GapCrossingTask.St) (b : Option Body)
    (hs : (GapCrossingTask.checkTermination st b).1.success = true) :
    ∃ ag, b = some ag ∧ inZone st.goalZone ag.pos ∧
      GapCrossingTask.requiredSuccessSteps ≤ st.successSteps + 1 := by
  cases b with
  | none => simp [GapCrossingTask.checkTermination] at hs
  | some ag =>
    by_cases hf : ag.pos.y < -5
    · simp [GapCrossingTask.checkTermination, hf] at hs
    by_cases hg : inZone st.goalZone ag.pos
    · by_cases hN : st.successSteps + 1 ≥ GapCrossingTask.requiredSuccessSteps
      · exact ⟨ag, rfl, hg, hN⟩
      · simp [GapCrossingTask.checkTermination, hf, hg, hN] at hs
    · simp [GapCrossingTask.checkTermination, hf, hg] at hs

/-- The `ThrowBlockTask.checkTermination` never changes the basket bounds. -/
theorem throw_check_bounds (st : ThrowBlockTask.St) (bl ag : Option Body) :
    (ThrowBlockTask.checkTermination st bl ag).2.basketBounds = st.basketBounds := by
  cases bl with
  | none => cases ag <;> rfl
  | some x =>
    cases ag with
    | none => rfl
    | some y =>
      simp only [ThrowBlockTask.checkTermination,
        apply_ite (fun r : TermResult × ThrowBlockTask.St => r.2.basketBounds), ite_self]

/-- Basket bounds are invariant along a run of manipulation checks. -/
theorem throw_run_bounds (st0 : ThrowBlockTask.St) (inp : Nat → Option Body × Option Body) :
    ∀ k, (ThrowBlockTask.checkRun st0 inp k).basketBounds = st0.basketBounds := by
  intro k
  induction k with
  | zero => rfl
  | succ k ih =>
    rw [ThrowBlockTask.checkRun, throw_check_bounds, ih]

/-- Dichotomy of a non-terminating manipulation check. -/
theorem throw_step_dichotomy (st0 : ThrowBlockTask.St)
    (inp : Nat → Option Body × Option Body) (j : Nat)
    (hnd : (ThrowBlockTask.resAt st0 inp j).done = false) :
    (ThrowBlockTask.compliantAt st0.basketBounds (inp j) ∧
      (ThrowBlockTask.checkRun st0 inp (j + 1)).successSteps =
        (ThrowBlockTask.checkRun st0 inp j).successSteps + 1) ∨
    (¬ ThrowBlockTask.compliantAt st0.basketBounds (inp j) ∧
      (ThrowBlockTask.checkRun st0 inp (j + 1)).successSteps = 0) := by
  unfold ThrowBlockTask.resAt at hnd
  rw [show (ThrowBlockTask.checkRun st0 inp (j + 1)) =
    (ThrowBlockTask.checkTermination (ThrowBlockTask.checkRun st0 inp j)
      (inp j).1 (inp j).2).2 from rfl]
  have hb := throw_run_bounds st0 inp j
  cases hin1 : (inp j).1 with
  | none => rw [hin1] at hnd; simp [ThrowBlockTask.checkTermination] at hnd
  | some bl =>
    cases hin2 : (inp j).2 with
    | none => rw [hin1, hin2] at hnd; simp [ThrowBlockTask.checkTermination] at hnd
    | some ag =>
      rw [hin1, hin2] at hnd
      by_cases hf1 : bl.pos.y < -2
      · simp [ThrowBlockTask.checkTermination, hf1] at hnd
      by_cases hf2 : ag.pos.y < -2
      · simp [ThrowBlockTask.checkTermination, hf1, hf2] at hnd
      by_cases hg : inZone (ThrowBlockTask.checkRun st0 inp j).basketBounds bl.pos ∧
          Real.sqrt (bl.vel.x * bl.vel.x + bl.vel.y * bl.vel.y + bl.vel.z * bl.vel.z) < 0.5
      · by_cases hN : (ThrowBlockTask.checkRun st0 inp j).successSteps + 1 ≥
            ThrowBlockTask.requiredSuccessSteps
        · simp [ThrowBlockTask.checkTermination, hf1, hf2, hg, hN] at hnd
        · left
          refine ⟨⟨bl, ag, ?_, by rw [← hb]; exact hg.1, hg.2⟩, ?_⟩
          · rw [← hin1, ← hin2]
          · simp [ThrowBlockTask.checkTermination, hf1, hf2, hg, hN]
      · right
        refine ⟨?_, by simp [ThrowBlockTask.checkTermination, hf1, hf2, hg]⟩
        rintro ⟨bl', ag', he, hg1, hg2⟩
        have he1 : bl = bl' := by
          have : some bl = some bl' := by rw [← hin1, he]
          exact Option.some_inj.mp this
        have he2 : ag = ag' := by
          have : some ag = some ag' := by rw [← hin2, he]
          exact Option.some_inj.mp this
        subst he1
        subst he2
        exact hg ⟨by rw [hb]; exact hg1, hg2⟩

/-- A successful manipulation check requires the block at rest in the basket
with a streak one short of the requirement. -/
theorem throw_success_char (st : ThrowBlockTask.St) (bl ag : Option Body)
    (hs : (ThrowBlockTask.checkTermination st bl ag).1.success = true) :
    ∃ b a, bl = some b ∧ ag = some a ∧ inZone st.basketBounds b.pos ∧
      Real.sqrt (b.vel.x * b.vel.x + b.vel.y * b.vel.y + b.vel.z * b.vel.z) < 0.5 ∧
      ThrowBlockTask.requiredSuccessSteps ≤ st.successSteps + 1 := by
  cases bl with
  | none => cases ag <;> simp [ThrowBlockTask.checkTermination] at hs
  | some b =>
    cases ag with
    | none => simp [ThrowBlockTask.checkTermination] at hs
    | some a =>
      by_cases hf1 : b.pos.y < -2
      · simp [ThrowBlockTask.checkTermination, hf1] at hs
      by_cases hf2 : a.pos.y < -2
      · simp [ThrowBlockTask.checkTermination, hf1, hf2] at hs
      by_cases hg : inZone st.basketBounds b.pos ∧
          Real.sqrt (b.vel.x * b.vel.x + b.vel.y * b.vel.y + b.vel.z * b.vel.z) < 0.5
      · by_cases hN : st.successSteps + 1 ≥ ThrowBlockTask.requiredSuccessSteps
        · exact ⟨b, a, rfl, rfl, hg.1, hg.2, hN⟩
        · simp [ThrowBlockTask.checkTermination, hf1, hf2, hg, hN] at hs
      · simp [ThrowBlockTask.checkTermination, hf1, hf2, hg] at hs

/-- Claim C4 (amended): along any episode in which the earlier checks did
not terminate, `checkTermination` reports success only after the success
predicate (goal zone for traversal; basket interior at rest speed for
manipulation) has held on the required number of consecutive checks — the
success check and the `N - 1` checks before it were all compliant — and any
failing check that leaves the episode ongoing resets the success-streak
counter to zero (a failing check that terminates the episode instead ends it
with `success = false`), so `N - 1` compliant steps followed by one
non-compliant step give no partial credit. -/
theorem c4_streak :
    (∀ (st0 : GapCrossingTask.St) (inp : Nat → Option Body) (K : Nat),
      st0.successSteps = 0 →
      (∀ j, j < K → (GapCrossingTask.resAt st0 inp j).done = false) →
      (GapCrossingTask.resAt st0 inp K).success = true →
      GapCrossingTask.requiredSuccessSteps ≤ K + 1 ∧
        ∀ t, K + 1 - GapCrossingTask.requiredSuccessSteps ≤ t → t ≤ K →
          GapCrossingTask.compliantAt st0.goalZone (inp t))
    ∧ (∀ (st0 : ThrowBlockTask.St) (inp : Nat → Option Body × Option Body) (K : Nat),
      st0.successSteps = 0 →
      (∀ j, j < K → (ThrowBlockTask.resAt st0 inp j).done = false) →
      (ThrowBlockTask.resAt st0 inp K).success = true →
      ThrowBlockTask.requiredSuccessSteps ≤ K + 1 ∧
        ∀ t, K + 1 - ThrowBlockTask.requiredSuccessSteps ≤ t → t ≤ K →
          ThrowBlockTask.compliantAt st0.basketBounds (inp t))
    ∧ (∀ (st : GapCrossingTask.St) (ag : Body),
      ¬ ag.pos.y < -5 → ¬ inZone st.goalZone ag.pos →
      (GapCrossingTask.checkTermination st (some ag)).1.done = false ∧
        (GapCrossingTask.checkTermination st (some ag)).1.success = false ∧
        (GapCrossingTask.checkTermination st (some ag)).2.successSteps = 0)
    ∧ (∀ (st : GapCrossingTaskV2.St) (ag : Body),
      ¬ ag.pos.y < -5 → ¬ |ag.pos.z| > GapCrossingTaskV2.platformDepth / 2 + 0.5 →
      ¬ inZone st.goalZone ag.pos →
      (GapCrossingTaskV2.checkTermination st (some ag)).1.done = false ∧
        (GapCrossingTaskV2.checkTermination st (some ag)).1.success = false ∧
        (GapCrossingTaskV2.checkTermination st (some ag)).2.successSteps = 0)
    ∧ (∀ (st : ThrowBlockTask.St) (bl ag : Body),
      ¬ bl.pos.y < -2 → ¬ ag.pos.y < -2 →
      ¬ (inZone st.basketBounds bl.pos ∧
          Real.sqrt (bl.vel.x * bl.vel.x + bl.vel.y * bl.vel.y + bl.vel.z * bl.vel.z) < 0.5) →
      (ThrowBlockTask.checkTermination st (some bl) (some ag)).1.done = false ∧
        (ThrowBlockTask.checkTermination st (some bl) (some ag)).1.success = false ∧
        (ThrowBlockTask.checkTermination st (some bl) (some ag)).2.successSteps = 0)
    ∧ (∀ (st : ThrowBlockTaskV2.St) (bl ag : Body),
      ¬ bl.pos.y < -2 → ¬ ag.pos.y < -2 →
      ¬ (inZone st.basketBounds bl.pos ∧
          Real.sqrt (bl.vel.x * bl.vel.x + bl.vel.y * bl.vel.y + bl.vel.z * bl.vel.z) < 0.5) →
      (ThrowBlockTaskV2.checkTermination st (some bl) (some ag)).1.done = false ∧
        (ThrowBlockTaskV2.checkTermination st (some bl) (some ag)).1.success = false ∧
        (ThrowBlockTaskV2.checkTermination st (some bl) (some ag)).2.successSteps = 0) := by
  refine ⟨?_, ?_, ?_, ?_, ?_, ?_⟩
  · intro st0 inp K h0 hnd hs
    have hzK := gapV1_run_zone st0 inp K
    unfold GapCrossingTask.resAt at hs
    obtain ⟨ag, hag, hgz, hN⟩ := gapV1_success_char _ _ hs
    have hstep : ∀ j, j < K →
        (GapCrossingTask.compliantAt st0.goalZone (inp j) ∧
          (GapCrossingTask.checkRun st0 inp (j + 1)).successSteps =
            (GapCrossingTask.checkRun st0 inp j).successSteps + 1) ∨
        (¬ GapCrossingTask.compliantAt st0.goalZone (inp j) ∧
          (GapCrossingTask.checkRun st0 inp (j + 1)).successSteps = 0) :=
      fun j hj => gapV1_step_dichotomy st0 inp j (hnd j hj)
    have hle := streakSeq_le K (fun k => (GapCrossingTask.checkRun st0 inp k).successSteps)
      (fun j => GapCrossingTask.compliantAt st0.goalZone (inp j)) h0 hstep K le_rfl
    have hback := streakSeq_back K (fun k => (GapCrossingTask.checkRun st0 inp k).successSteps)
      (fun j => GapCrossingTask.compliantAt st0.goalZone (inp j)) h0 hstep K le_rfl
    simp only at hle hback
    constructor
    · exact le_trans hN (Nat.succ_le_succ hle)
    · intro t h1 h2
      rcases Nat.lt_or_ge t K with htK | htK
      · refine hback t ?_ htK
        omega
      · have ht : t = K := le_antisymm h2 htK
        subst ht
        rw [hzK] at hgz
        exact ⟨ag, hag, hgz⟩
  · intro st0 inp K h0 hnd hs
    have hbK := throw_run_bounds st0 inp K
    unfold ThrowBlockTask.resAt at hs
    obtain ⟨bl, ag, hbl, hag, hgz, hsp, hN⟩ := throw_success_char _ _ _ hs
    have hstep : ∀ j, j < K →
        (ThrowBlockTask.compliantAt st0.basketBounds (inp j) ∧
          (ThrowBlockTask.checkRun st0 inp (j + 1)).successSteps =
            (ThrowBlockTask.checkRun st0 inp j).successSteps + 1) ∨
        (¬ ThrowBlockTask.compliantAt st0.basketBounds (inp j) ∧
          (ThrowBlockTask.checkRun st0 inp (j + 1)).successSteps = 0) :=
      fun j hj => throw_step_dichotomy st0 inp j (hnd j hj)
    have hle := streakSeq_le K (fun k => (ThrowBlockTask.checkRun st0 inp k).successSteps)
      (fun j => ThrowBlockTask.compliantAt st0.basketBounds (inp j)) h0 hstep K le_rfl
    have hback := streakSeq_back K (fun k => (ThrowBlockTask.checkRun st0 inp k).successSteps)
      (fun j => ThrowBlockTask.compliantAt st0.basketBounds (inp j)) h0 hstep K le_rfl
    simp only at hle hback
    constructor
    · exact le_trans hN (Nat.succ_le_succ hle)
    · intro t h1 h2
      rcases Nat.lt_or_ge t K with htK | htK
      · refine hback t ?_ htK
        omega
      · have ht : t = K := le_antisymm h2 htK
        subst ht
        rw [hbK] at hgz
        refine ⟨bl, ag, ?_, hgz, hsp⟩
        rw [← hbl, ← hag]
  · intro st ag hf hg
    exact ⟨by simp [GapCrossingTask.checkTermination, hf, hg],
      by simp [GapCrossingTask.checkTermination, hf, hg],
      by simp [GapCrossingTask.checkTermination, hf, hg]⟩
  · intro st ag hf hside hg
    exact ⟨by simp [GapCrossingTaskV2.checkTermination, hf, hside, hg],
      by simp [GapCrossingTaskV2.checkTermination, hf, hside, hg],
      by simp [GapCrossingTaskV2.checkTermination, hf, hside, hg]⟩
  · intro st bl ag hf1 hf2 hg
    exact ⟨by simp [ThrowBlockTask.checkTermination, hf1, hf2, hg],
      by simp [ThrowBlockTask.checkTermination, hf1, hf2, hg],
      by simp [ThrowBlockTask.checkTermination, hf1, hf2, hg]⟩
  · intro st bl ag hf1 hf2 hg
    exact ⟨by simp [ThrowBlockTaskV2.checkTermination, hf1, hf2, hg],
      by simp [ThrowBlockTaskV2.checkTermination, hf1, hf2, hg],
      by simp [ThrowBlockTaskV2.checkTermination, hf1, hf2, hg]⟩

/-- Counterexample to C4 as stated: a check on which the success predicate
fails because the agent fell terminates the episode via the early `fell`
return without resetting the streak counter — it stays at 4, it is not reset
to zero (the episode is over, so no credit is granted either way). -/
theorem c4_counterexample :
    ¬ inZone stC4.goalZone agC4.pos ∧
    stC4.successSteps = 4 ∧
    (GapCrossingTask.checkTermination stC4 (some agC4)).1.done = true ∧
    (GapCrossingTask.checkTermination stC4 (some agC4)).1.success = false ∧
    (GapCrossingTask.checkTermination stC4 (some agC4)).2.successSteps = 4 := by
  have hf : agC4.pos.y < -5 := by norm_num [agC4]
  refine ⟨by norm_num [inZone, stC4, agC4], rfl, ?_, ?_, ?_⟩
  · simp [GapCrossingTask.checkTermination, hf]
  · simp [GapCrossingTask.checkTermination, hf]
  · simp [GapCrossingTask.checkTermination, hf, stC4]

/-- Witness for C4: a non-compliant but non-terminating check resets a
four-step streak to zero with no success reported. -/
theorem c4_witness :
    ¬ agC4out.pos.y < -5 ∧ ¬ inZone stC4.goalZone agC4out.pos ∧
    stC4.successSteps = 4 ∧
    (GapCrossingTask.checkTermination stC4 (some agC4out)).1.done = false ∧
    (GapCrossingTask.checkTermination stC4 (some agC4out)).1.success = false ∧
    (GapCrossingTask.checkTermination stC4 (some agC4out)).2.successSteps = 0 := by
  have h1 : ¬ agC4out.pos.y < -5 := by norm_num [agC4out]
  have h2 : ¬ inZone stC4.goalZone agC4out.pos := by norm_num [inZone, stC4, agC4out]
  have h3 := c4_streak.2.2.1 stC4 agC4out h1 h2
  exact ⟨h1, h2, rfl, h3.1, h3.2.1, h3.2.2⟩

/-- Claim C1 (amended): two fresh `gap_v2` sessions with identical merged
configuration (hence identical seed), driven by the same physics backend
through the same action sequence, produce identical step-response sequences
provided the wall-clock oracle (the values `Date.now()` returns on
corresponding ticks) also coincides; the session outputs are a function of
nothing else.  The other task families never consult the wall clock — their
`applyAction` embeddings take no `now` input — so for them the condition is
vacuous. -/
theorem c1_deterministic (phys : Body → Body) (oracle₁ oracle₂ : Nat → ℝ)
    (cfg₁ cfg₂ : EnvConfig) (acts₁ acts₂ : List Act)
    (hc : cfg₁ = cfg₂) (ha : acts₁ = acts₂) (ho : oracle₁ = oracle₂) :
    runSession (GapCrossingTaskV2.ops phys oracle₁ cfg₁.gravity)
        (GapCrossingTaskV2.init cfg₁) acts₁ =
      runSession (GapCrossingTaskV2.ops phys oracle₂ cfg₂.gravity)
        (GapCrossingTaskV2.init cfg₂) acts₂ := by
  subst hc
  subst ha
  subst ho
  rfl

/-- Witness for C1 on two concretely equal fresh sessions. -/
theorem c1_witness :
    runSession (GapCrossingTaskV2.ops id oracleA cfgC1.gravity)
        (GapCrossingTaskV2.init cfgC1) [Act.str "jump"] =
      runSession (GapCrossingTaskV2.ops id oracleA cfgC1.gravity)
        (GapCrossingTaskV2.init cfgC1) [Act.str "jump"] :=
  c1_deterministic id oracleA oracleA cfgC1 cfgC1 [Act.str "jump"] [Act.str "jump"]
    rfl rfl rfl

/-- Counterexample to C1 as stated: two fresh `gap_v2` sessions with the
same seed, configuration and action sequence, stepped by the same (trivially
deterministic) backend, diverge when the wall clock differs — the jump
cooldown compares `Date.now()` against `lastJumpTime`, so the session whose
clock reads 600 ms jumps while the one reading 100 ms does not. -/
theorem c1_counterexample :
    runSession (GapCrossingTaskV2.ops id oracleA cfgC1.gravity)
        (GapCrossingTaskV2.init cfgC1) [Act.str "jump"] ≠
      runSession (GapCrossingTaskV2.ops id oracleB cfgC1.gravity)
        (GapCrossingTaskV2.init cfgC1) [Act.str "jump"] := by
  intro h
  have h1 := congrArg
    (fun l => l.map fun r => (r.observation).map fun o => o.agentVelocity.y) h
  have hjump : normalizeAction GapCrossingTaskV2.actions (Act.str "jump") = some "jump" := by
    decide
  simp only [runSession, stepEnvironment, stepTicks, GapCrossingTaskV2.ops,
    GapCrossingTaskV2.init, GapCrossingTaskV2.setup, GapCrossingTaskV2.applyAction,
    GapCrossingTaskV2.getObservation, cfgC1, mergeConfig, Option.getD, hjump,
    Function.iterate_one, List.map, Option.map_map] at h1
  norm_num [GapCrossingTaskV2.agentHeight, GapCrossingTaskV2.moveSpeed,
    GapCrossingTaskV2.jumpHeight, GapCrossingTaskV2.jumpCooldownMs, oracleA, oracleB,
    decide_eq_true_eq, GapCrossingTaskV2.platformWidth, clamp] at h1
  simp at h1

end GravityAgents
